import Mathlib

/-!
Shallow embedding of the traffic-simulation and mission-control engine of the
car-ai repository: the backend simulation service (mission state machine,
traffic population engine), the RL driving environment, the episode generator
and the voice mission controller, together with theorems settling the
specification claims about them.

JavaScript numbers are modelled as exact rationals; runtime values that may be
non-finite (NaN, plus or minus Infinity) are modelled by `JsNum` where the
code guards with `Number.isFinite` / `Number.isInteger`.
-/

deriving instance DecidableEq for Except

namespace CarAi

/-- A JavaScript number as it can arrive in a JSON mission patch: either a
finite value (modelled exactly as a rational) or one of the non-finite values
rejected by `Number.isFinite`. -/
inductive JsNum where
  | fin (q : ℚ)
  | nan
  | posInf
  | negInf
deriving DecidableEq, Repr

/-- `Number.isFinite`. -/
def JsNum.isFinite : JsNum → Bool
  | .fin _ => true
  | _ => false

/-- `Number.isInteger`. -/
def JsNum.isInteger : JsNum → Bool
  | .fin q => q.den == 1
  | _ => false

/-- The rational payload of a finite value (`0` for the non-finite ones, only
read behind an `isFinite` / `isInteger` guard). -/
def JsNum.toQ : JsNum → ℚ
  | .fin q => q
  | _ => 0

/-- The integer payload of a value that passed `Number.isInteger`. -/
def JsNum.toInt (n : JsNum) : ℤ := n.toQ.num

/-- `DrivingMissionSnapshot` (backend simulation model): the stored mission.
`none` on a nullable field is the JSON `null`. -/
structure Mission where
  targetLaneIndex : Option ℤ
  cruiseTargetSpeedMph : ℚ
  cruiseGapMeters : ℚ
  mode : String
  returnLaneIndex : Option ℤ
  laneChangeDirection : Option String
  source : String
  note : Option String
  updatedAt : ℤ
deriving DecidableEq, Repr

/-- `DrivingMissionUpdate`: a partial mission patch.  The outer `Option` is
field presence (`none` is `undefined`); for nullable fields the inner
`Option` is the JSON `null`.  Numeric fields arrive as raw JavaScript
numbers, enum fields as raw strings, exactly as the service validates them. -/
structure MissionUpdate where
  targetLaneIndex : Option (Option JsNum) := none
  cruiseTargetSpeedMph : Option JsNum := none
  cruiseGapMeters : Option JsNum := none
  source : Option String := none
  note : Option String := none
  mode : Option String := none
  returnLaneIndex : Option (Option JsNum) := none
  laneChangeDirection : Option (Option String) := none
deriving DecidableEq, Repr

/-- The valid mission modes checked by `updateMission`. -/
def validModes : List String := ["hold", "cruise", "lane_change", "overtake"]

/-- Lane-index validation used by `updateMission` for `targetLaneIndex` and
`returnLaneIndex`: `Number.isInteger(i) && i >= 0 && i < laneProfiles.length`. -/
def laneIndexOk (laneCount : ℕ) (n : JsNum) : Bool :=
  n.isInteger && decide (0 ≤ n.toQ) && decide (n.toQ < (laneCount : ℚ))

/-- The `targetLaneIndex` clause of `updateMission`. -/
def applyTargetLane (laneCount : ℕ) (u : MissionUpdate) (m : Mission) :
    Except String Mission :=
  match u.targetLaneIndex with
  | none => .ok m
  | some none => .ok { m with targetLaneIndex := none }
  | some (some n) =>
    if laneIndexOk laneCount n then .ok { m with targetLaneIndex := some n.toInt }
    else .error "Invalid lane index"

/-- The `cruiseTargetSpeedMph` clause of `updateMission`: a non-finite value
throws, every finite value is clamped into [25, 95]. -/
def applySpeed (u : MissionUpdate) (m : Mission) : Except String Mission :=
  match u.cruiseTargetSpeedMph with
  | none => .ok m
  | some n =>
    if n.isFinite then
      .ok { m with cruiseTargetSpeedMph := max 25 (min 95 n.toQ) }
    else .error "Invalid cruiseTargetSpeedMph"

/-- The `cruiseGapMeters` clause of `updateMission`: a non-finite or
non-positive value throws, every finite positive value is clamped into
[8, 120]. -/
def applyGap (u : MissionUpdate) (m : Mission) : Except String Mission :=
  match u.cruiseGapMeters with
  | none => .ok m
  | some n =>
    if n.isFinite && decide (0 < n.toQ) then
      .ok { m with cruiseGapMeters := max 8 (min 120 n.toQ) }
    else .error "Invalid cruiseGapMeters"

/-- The `returnLaneIndex` clause of `updateMission`. -/
def applyReturnLane (laneCount : ℕ) (u : MissionUpdate) (m : Mission) :
    Except String Mission :=
  match u.returnLaneIndex with
  | none => .ok m
  | some none => .ok { m with returnLaneIndex := none }
  | some (some n) =>
    if laneIndexOk laneCount n then .ok { m with returnLaneIndex := some n.toInt }
    else .error "Invalid return lane index"

/-- The `mode` clause of `updateMission`. -/
def applyMode (u : MissionUpdate) (m : Mission) : Except String Mission :=
  match u.mode with
  | none => .ok m
  | some s =>
    if validModes.contains s then .ok { m with mode := s }
    else .error "Invalid mission mode"

/-- The `laneChangeDirection` clause of `updateMission`: null clears it, only
the strings left and right are accepted. -/
def applyDirection (u : MissionUpdate) (m : Mission) : Except String Mission :=
  match u.laneChangeDirection with
  | none => .ok m
  | some none => .ok { m with laneChangeDirection := none }
  | some (some s) =>
    if s == "left" || s == "right" then .ok { m with laneChangeDirection := some s }
    else .error "laneChangeDirection must be left or right or null"

/-- The `source` clause: `if (update.source)` is a truthiness test, so an
empty string is ignored; no validation error is possible. -/
def applySource (u : MissionUpdate) (m : Mission) : Mission :=
  match u.source with
  | none => m
  | some s => if s == "" then m else { m with source := s }

/-- The `note` clause: any present string is copied. -/
def applyNote (u : MissionUpdate) (m : Mission) : Mission :=
  match u.note with
  | none => m
  | some s => { m with note := some s }

/-- `SimulationService.updateMission`: stamps a fresh timestamp, then
validates and applies the patch field by field in source order; the first
invalid field aborts the whole call with the thrown error. -/
def updateMission (laneCount : ℕ) (now : ℤ) (m : Mission) (u : MissionUpdate) :
    Except String Mission :=
  Except.bind (applyTargetLane laneCount u { m with updatedAt := now }) fun m1 =>
  Except.bind (applySpeed u m1) fun m2 =>
  Except.bind (applyGap u m2) fun m3 =>
  Except.bind (applyReturnLane laneCount u m3) fun m4 =>
  Except.bind (applyMode u m4) fun m5 =>
  Except.bind (applyDirection u m5) fun m6 =>
  .ok (applyNote u (applySource u m6))

/-- The mission stored after a call to `updateMission`: `this.mission = next`
runs only when no field failed validation, so on a thrown error the stored
mission is the one from before the call. -/
def missionAfter (laneCount : ℕ) (now : ℤ) (m : Mission) (u : MissionUpdate) :
    Mission :=
  match updateMission laneCount now m u with
  | .ok next => next
  | .error _ => m

/-- Whether the `updateMission` call threw. -/
def updateThrew (laneCount : ℕ) (now : ℤ) (m : Mission) (u : MissionUpdate) :
    Bool :=
  match updateMission laneCount now m u with
  | .ok _ => false
  | .error _ => true

/-- The lane count of the active scene (California US-101, five lanes). -/
def liveLaneCount : ℕ := 5

/-- The mission installed by the simulation service constructor. -/
def initialMission : Mission :=
  { targetLaneIndex := some 0
    cruiseTargetSpeedMph := 65
    cruiseGapMeters := 32
    mode := "cruise"
    returnLaneIndex := none
    laneChangeDirection := none
    source := "system"
    note := none
    updatedAt := 0 }

/-- A mission patch field that `updateMission` must reject: an out-of-range or
non-integer target or return lane index, a non-finite cruise speed, a
non-finite or non-positive gap, an invalid mode, or an invalid lane-change
direction. -/
def MissionUpdate.hasInvalidField (laneCount : ℕ) (u : MissionUpdate) : Prop :=
  (∃ n, u.targetLaneIndex = some (some n) ∧ laneIndexOk laneCount n = false) ∨
  (∃ n, u.cruiseTargetSpeedMph = some n ∧ n.isFinite = false) ∨
  (∃ n, u.cruiseGapMeters = some n ∧ (n.isFinite && decide (0 < n.toQ)) = false) ∨
  (∃ n, u.returnLaneIndex = some (some n) ∧ laneIndexOk laneCount n = false) ∨
  (∃ s, u.mode = some s ∧ validModes.contains s = false) ∨
  (∃ s, u.laneChangeDirection = some (some s) ∧ (s == "left" || s == "right") = false)

theorem exists_error_bind {α β : Type} (a : Except String α)
    (f : α → Except String β) (h : ∀ x, ∃ e, f x = .error e) :
    ∃ e, Except.bind a f = .error e := by
  cases a with
  | error e => exact ⟨e, rfl⟩
  | ok x => simpa [Except.bind] using h x

theorem applyTargetLane_error {laneCount : ℕ} {u : MissionUpdate} {n : JsNum}
    (hn : u.targetLaneIndex = some (some n))
    (hbad : laneIndexOk laneCount n = false) (m : Mission) :
    applyTargetLane laneCount u m = .error "Invalid lane index" := by
  simp [applyTargetLane, hn, hbad]

theorem applySpeed_error {u : MissionUpdate} {n : JsNum}
    (hn : u.cruiseTargetSpeedMph = some n) (hbad : n.isFinite = false)
    (m : Mission) : applySpeed u m = .error "Invalid cruiseTargetSpeedMph" := by
  simp [applySpeed, hn, hbad]

theorem applyGap_error {u : MissionUpdate} {n : JsNum}
    (hn : u.cruiseGapMeters = some n)
    (hbad : (n.isFinite && decide (0 < n.toQ)) = false) (m : Mission) :
    applyGap u m = .error "Invalid cruiseGapMeters" := by
  simp only [applyGap, hn, hbad, Bool.false_eq_true, if_false]

theorem applyReturnLane_error {laneCount : ℕ} {u : MissionUpdate} {n : JsNum}
    (hn : u.returnLaneIndex = some (some n))
    (hbad : laneIndexOk laneCount n = false) (m : Mission) :
    applyReturnLane laneCount u m = .error "Invalid return lane index" := by
  simp [applyReturnLane, hn, hbad]

theorem applyMode_error {u : MissionUpdate} {s : String}
    (hs : u.mode = some s) (hbad : validModes.contains s = false) (m : Mission) :
    applyMode u m = .error "Invalid mission mode" := by
  simp only [applyMode, hs, hbad, Bool.false_eq_true, if_false]

theorem applyDirection_error {u : MissionUpdate} {s : String}
    (hs : u.laneChangeDirection = some (some s))
    (hbad : (s == "left" || s == "right") = false) (m : Mission) :
    applyDirection u m = .error "laneChangeDirection must be left or right or null" := by
  simp only [applyDirection, hs, hbad, Bool.false_eq_true, if_false]

/-- C1 counterexample: a patch with a finite but out-of-range cruise speed
(200 mph) is not rejected: it is accepted and clamped to 95, and the stored
mission changes; likewise a finite gap of 500 m is accepted and clamped to
120. -/
theorem c1_counterexample :
    updateMission liveLaneCount 1 initialMission
        { cruiseTargetSpeedMph := some (.fin 200) }
      = .ok { initialMission with cruiseTargetSpeedMph := 95, updatedAt := 1 }
    ∧ missionAfter liveLaneCount 1 initialMission
        { cruiseTargetSpeedMph := some (.fin 200) } ≠ initialMission
    ∧ updateMission liveLaneCount 1 initialMission
        { cruiseGapMeters := some (.fin 500) }
      = .ok { initialMission with cruiseGapMeters := 120, updatedAt := 1 } := by
  norm_num [updateMission, missionAfter, applyTargetLane, applySpeed, applyGap,
    applyReturnLane, applyMode, applyDirection, applySource, applyNote,
    JsNum.isFinite, JsNum.toQ, Except.bind, initialMission, min_def, max_def]

/-- C1 (amended): for every mission and every patch carrying a finite cruise
target speed and a finite positive gap, the patch is accepted and the two
values are clamped into [25, 95] mph and [8, 120] m respectively; only a
non-finite speed or a non-finite or non-positive gap is rejected (and then
the stored mission is unchanged, see the C4 theorem). -/
theorem c1_amended_clamping (m : Mission) (now : ℤ) (s g : ℚ) (hg : 0 < g) :
    updateMission liveLaneCount now m
        { cruiseTargetSpeedMph := some (.fin s), cruiseGapMeters := some (.fin g) }
      = .ok { m with cruiseTargetSpeedMph := max 25 (min 95 s),
                     cruiseGapMeters := max 8 (min 120 g), updatedAt := now } := by
  simp [updateMission, applyTargetLane, applySpeed, applyGap, applyReturnLane,
    applyMode, applyDirection, applySource, applyNote, JsNum.isFinite,
    JsNum.toQ, Except.bind, hg]

theorem c1_amended_clamping_witness :
    updateMission liveLaneCount 1 initialMission
        { cruiseTargetSpeedMph := some (.fin 200), cruiseGapMeters := some (.fin 500) }
      = .ok { initialMission with cruiseTargetSpeedMph := 95,
                                  cruiseGapMeters := 120, updatedAt := 1 } := by
  have h := c1_amended_clamping initialMission 1 200 500 (by norm_num)
  norm_num [min_def, max_def] at h
  exact h

/-- C4: a patch with at least one invalid field makes `updateMission` throw,
and the stored mission is exactly the mission from before the call: no field
of the patch is applied. -/
theorem c4_invalid_patch_atomic (laneCount : ℕ) (now : ℤ) (m : Mission)
    (u : MissionUpdate) (h : u.hasInvalidField laneCount) :
    (∃ e, updateMission laneCount now m u = .error e) ∧
      missionAfter laneCount now m u = m ∧
      updateThrew laneCount now m u = true := by
  have herr : ∃ e, updateMission laneCount now m u = .error e := by
    rcases h with ⟨n, hn, hb⟩ | ⟨n, hn, hb⟩ | ⟨n, hn, hb⟩ | ⟨n, hn, hb⟩ |
      ⟨s, hs, hb⟩ | ⟨s, hs, hb⟩
    · exact ⟨"Invalid lane index",
        by simp [updateMission, applyTargetLane_error hn hb, Except.bind]⟩
    · unfold updateMission
      exact exists_error_bind _ _ fun m1 =>
        ⟨"Invalid cruiseTargetSpeedMph",
          by simp [applySpeed_error hn hb, Except.bind]⟩
    · unfold updateMission
      exact exists_error_bind _ _ fun m1 => exists_error_bind _ _ fun m2 =>
        ⟨"Invalid cruiseGapMeters", by simp [applyGap_error hn hb, Except.bind]⟩
    · unfold updateMission
      exact exists_error_bind _ _ fun m1 => exists_error_bind _ _ fun m2 =>
        exists_error_bind _ _ fun m3 =>
          ⟨"Invalid return lane index",
            by simp [applyReturnLane_error hn hb, Except.bind]⟩
    · unfold updateMission
      exact exists_error_bind _ _ fun m1 => exists_error_bind _ _ fun m2 =>
        exists_error_bind _ _ fun m3 => exists_error_bind _ _ fun m4 =>
          ⟨"Invalid mission mode", by simp [applyMode_error hs hb, Except.bind]⟩
    · unfold updateMission
      exact exists_error_bind _ _ fun m1 => exists_error_bind _ _ fun m2 =>
        exists_error_bind _ _ fun m3 => exists_error_bind _ _ fun m4 =>
          exists_error_bind _ _ fun m5 =>
            ⟨"laneChangeDirection must be left or right or null",
              by simp [applyDirection_error hs hb, Except.bind]⟩
  obtain ⟨e, he⟩ := herr
  exact ⟨⟨e, he⟩, by simp [missionAfter, he], by simp [updateThrew, he]⟩

theorem c4_invalid_patch_atomic_witness :
    (∃ e, updateMission liveLaneCount 1 initialMission { mode := some "fly" }
        = .error e) ∧
      missionAfter liveLaneCount 1 initialMission { mode := some "fly" }
        = initialMission ∧
      updateThrew liveLaneCount 1 initialMission { mode := some "fly" } = true :=
  c4_invalid_patch_atomic liveLaneCount 1 initialMission { mode := some "fly" }
    (Or.inr (Or.inr (Or.inr (Or.inr (Or.inl ⟨"fly", rfl, by decide⟩)))))

/-- `VoiceController.applyMission` for a structured request body carrying only
`mode = "cruise"` (no utterance, explicit speed, gap or lane fields): the
controller fills in the cruise defaults — the ego's current speed and the
canonical two-car-length gap `2 * 4.6 m` — before sending the patch to
`updateMission`, and records a supplementary note. -/
def cruiseDefaultPatch (currentSpeedMph : ℚ) : MissionUpdate :=
  { mode := some "cruise"
    source := some "voice"
    note := some "Override: mode cruise"
    cruiseTargetSpeedMph := some (.fin currentSpeedMph)
    cruiseGapMeters := some (.fin (2 * (23/5))) }

/-- C5 counterexample: with the ego currently at 10 mph, the defaulted cruise
patch is accepted but the stored cruise target speed is the clamped 25 mph,
not the ego's current speed. -/
theorem c5_counterexample :
    updateThrew liveLaneCount 1 initialMission (cruiseDefaultPatch 10) = false ∧
    (missionAfter liveLaneCount 1 initialMission (cruiseDefaultPatch 10)).mode
      = "cruise" ∧
    (missionAfter liveLaneCount 1 initialMission
        (cruiseDefaultPatch 10)).cruiseTargetSpeedMph = 25 ∧
    ¬ (25 : ℚ) = 10 := by
  have hv : ¬("voice" = "") := by decide
  norm_num [updateThrew, missionAfter, updateMission, cruiseDefaultPatch,
    applyTargetLane, applySpeed, applyGap, applyReturnLane, applyMode,
    applyDirection, applySource, applyNote, JsNum.isFinite, JsNum.toQ,
    Except.bind, initialMission, validModes, min_def, max_def, hv]

/-- C5 (amended): a voice patch that transitions mode to cruise with no
explicit target speed and no explicit gap yields a mission whose cruise
target speed is the ego's current speed clamped into [25, 95] mph (so equal
to the ego's speed exactly when that speed is in range) and whose gap is the
canonical two-car-length distance 9.2 m (inside [8, 120], hence never
clamped). -/
theorem c5_amended_cruise_defaults (m : Mission) (now : ℤ) (s : ℚ) :
    updateMission liveLaneCount now m (cruiseDefaultPatch s)
      = .ok { m with mode := "cruise", source := "voice",
                     note := some "Override: mode cruise",
                     cruiseTargetSpeedMph := max 25 (min 95 s),
                     cruiseGapMeters := 46/5, updatedAt := now } := by
  have hgap : max (8:ℚ) (min 120 (2 * (23/5))) = 46/5 := by
    norm_num [min_def, max_def]
  simp [updateMission, cruiseDefaultPatch, applyTargetLane, applySpeed,
    applyGap, applyReturnLane, applyMode, applyDirection, applySource,
    applyNote, JsNum.isFinite, JsNum.toQ, Except.bind, validModes, hgap]

/-- `MPH_TO_MPS = 0.44704`. -/
def mphFactor : ℚ := 44704/100000

def mphToMps (mph : ℚ) : ℚ := mph * mphFactor

def mpsToMph (mps : ℚ) : ℚ := mps / mphFactor

/-- `LANE_WIDTH_METERS = 3.6`. -/
def laneWidthMeters : ℚ := 18/5

/-- `TrafficLaneProfile`. -/
structure LaneProfile where
  laneIndex : ℤ
  laneType : String
  targetSpeedMph : ℚ
  minSpeedMph : ℚ
  maxSpeedMph : ℚ
  preferredSpacingMeters : ℚ
  spawnRatePerMinute : ℚ
deriving DecidableEq, Repr

/-- One row of `LANE_TYPE_PROFILES`: target speed band, density, preferred
spacing. -/
structure LaneTypeRow where
  minTarget : ℚ
  maxTarget : ℚ
  density : ℚ
  spacing : ℚ
deriving DecidableEq, Repr

/-- The fixed `LANE_TYPE_PROFILES` table. -/
def laneTypeRow (t : String) : Option LaneTypeRow :=
  if t == "express" then some ⟨66, 74, 18, 45⟩
  else if t == "carpool" then some ⟨60, 70, 20, 38⟩
  else if t == "general" then some ⟨50, 63, 28, 32⟩
  else if t == "exit" then some ⟨25, 40, 14, 28⟩
  else none

/-- One step of `buildLaneProfiles`: average target speed, spawn rate
`max 4 (density * 0.6)`.  A missing lane-type row is fatal at startup in the
source; the zero fallback here is unreachable for the live scenes. -/
def buildLaneProfile (idx : ℕ) (t : String) : LaneProfile :=
  let row := (laneTypeRow t).getD ⟨0, 0, 0, 0⟩
  { laneIndex := (idx : ℤ)
    laneType := t
    targetSpeedMph := (row.minTarget + row.maxTarget) / 2
    minSpeedMph := row.minTarget
    maxSpeedMph := row.maxTarget
    preferredSpacingMeters := row.spacing
    spawnRatePerMinute := max 4 (row.density * (6/10)) }

/-- The lane types of the active scene (California US-101 southbound). -/
def coastal101LaneTypes : List String :=
  ["express", "carpool", "general", "general", "general"]

/-- The lane profiles of the live simulation, as built by
`buildLaneProfiles` on the active scene. -/
def liveLaneProfiles : List LaneProfile :=
  coastal101LaneTypes.enum.map fun p => buildLaneProfile p.1 p.2

/-- The id of the active scene. -/
def liveSceneId : String := "california-101"

theorem laneTypeRow_express : laneTypeRow "express" = some ⟨66, 74, 18, 45⟩ := by
  decide

theorem laneTypeRow_carpool : laneTypeRow "carpool" = some ⟨60, 70, 20, 38⟩ := by
  decide

theorem laneTypeRow_general : laneTypeRow "general" = some ⟨50, 63, 28, 32⟩ := by
  decide

/-- The live lane profiles, evaluated: express 66-74 mph with 45 m spacing,
carpool 60-70 mph with 38 m, three general lanes 50-63 mph with 32 m. -/
theorem liveLaneProfiles_eq : liveLaneProfiles =
    [⟨0, "express", 70, 66, 74, 45, 54/5⟩,
     ⟨1, "carpool", 65, 60, 70, 38, 12⟩,
     ⟨2, "general", 113/2, 50, 63, 32, 84/5⟩,
     ⟨3, "general", 113/2, 50, 63, 32, 84/5⟩,
     ⟨4, "general", 113/2, 50, 63, 32, 84/5⟩] := by
  norm_num [liveLaneProfiles, coastal101LaneTypes, List.enum, List.enumFrom,
    buildLaneProfile, laneTypeRow_express, laneTypeRow_carpool,
    laneTypeRow_general, min_def, max_def]

/-- JavaScript array indexing `arr[i]` with a possibly negative index. -/
def profAt (ps : List LaneProfile) (i : ℤ) : Option LaneProfile :=
  if 0 ≤ i then ps.get? i.toNat else none

/-- A vehicle as copied into the RL environment (`EnvironmentVehicle`). -/
structure EnvVehicle where
  id : String
  laneIndex : ℤ
  positionZ : ℚ
  speedMps : ℚ
  lengthMeters : ℚ
  widthMeters : ℚ
  kind : String
deriving DecidableEq, Repr

/-- The RL ego state (`EgoState`). -/
structure EgoState where
  laneIndex : ℤ
  laneOffset : ℚ
  speedMps : ℚ
  positionZ : ℚ
  headingRad : ℚ
  gear : ℤ
deriving DecidableEq, Repr

/-- The RL environment mission (`DrivingMission` in `drivingEnv`):
`targetLaneIndex` is nullable, `returnLaneIndex` and `laneChangeDirection`
are always populated (with null) on every construction path, so the
undefined state of those optional fields is not distinguished here. -/
structure EnvMission where
  targetLaneIndex : Option ℚ
  cruiseTargetSpeedMps : ℚ
  cruiseGapMeters : ℚ
  mode : String
  returnLaneIndex : Option ℚ
  laneChangeDirection : Option String
deriving DecidableEq, Repr

/-- A partial mission override (`Partial DrivingMission`): `none` is an
absent field, merged over the current mission by `setMission`. -/
structure EnvMissionPatch where
  targetLaneIndex : Option (Option ℚ) := none
  cruiseTargetSpeedMps : Option ℚ := none
  cruiseGapMeters : Option ℚ := none
  mode : Option String := none
  returnLaneIndex : Option (Option ℚ) := none
  laneChangeDirection : Option (Option String) := none
deriving DecidableEq, Repr

/-- `DrivingEnvironment.setMission`: spread-merge of a partial goal over the
current mission. -/
def setMission (m : EnvMission) (g : EnvMissionPatch) : EnvMission :=
  { targetLaneIndex := g.targetLaneIndex.getD m.targetLaneIndex
    cruiseTargetSpeedMps := g.cruiseTargetSpeedMps.getD m.cruiseTargetSpeedMps
    cruiseGapMeters := g.cruiseGapMeters.getD m.cruiseGapMeters
    mode := g.mode.getD m.mode
    returnLaneIndex := g.returnLaneIndex.getD m.returnLaneIndex
    laneChangeDirection := g.laneChangeDirection.getD m.laneChangeDirection }

/-- `DrivingEnvConfig` with all fields required (after defaulting). -/
structure EnvConfig where
  timeStepSeconds : ℚ
  maxEpisodeSeconds : ℚ
  maxSpeedMps : ℚ
  maxAccelMps2 : ℚ
  maxBrakeMps2 : ℚ
  coastDragMps2 : ℚ
  laneCount : ℕ
deriving DecidableEq, Repr

/-- `DEFAULT_CONFIG`. -/
def defaultEnvConfig : EnvConfig :=
  { timeStepSeconds := 1/5
    maxEpisodeSeconds := 180
    maxSpeedMps := mphToMps 90
    maxAccelMps2 := 18/5
    maxBrakeMps2 := 13/2
    coastDragMps2 := 6/5
    laneCount := 5 }

/-- `FALLBACK_LANE_PROFILE`. -/
def fallbackLaneProfile : LaneProfile :=
  { laneIndex := 0, laneType := "general", targetSpeedMph := 60,
    minSpeedMph := 45, maxSpeedMph := 70, preferredSpacingMeters := 32,
    spawnRatePerMinute := 18 }

/-- The whole mutable state of a `DrivingEnvironment` instance. -/
structure EnvState where
  config : EnvConfig
  laneProfiles : List LaneProfile
  traffic : List EnvVehicle
  ego : EgoState
  elapsedSeconds : ℚ
  episodeId : String
  mission : EnvMission
deriving DecidableEq, Repr

/-- `DrivingAction`: the code defends every numeric command with `?? 0`, so
the commands are modelled as optional. -/
structure DrivingAction where
  lateral : ℚ := 0
  acceleration : Option ℚ := none
  brake : Option ℚ := none
  requestedLaneIndex : Option ℚ := none
deriving DecidableEq, Repr

/-- `DrivingObservation` (the fields `buildObservation` populates). -/
structure Observation where
  laneIndex : ℤ
  laneOffsetMeters : ℚ
  speedMps : ℚ
  targetSpeedMps : ℚ
  cruiseTargetSpeedMps : ℚ
  cruiseGapMeters : ℚ
  gapAheadMeters : ℚ
  gapBehindMeters : ℚ
  relativeSpeedAheadMps : ℚ
  relativeSpeedBehindMps : ℚ
  targetLaneIndex : Option ℚ
  missionMode : String
  returnLaneIndex : Option ℚ
deriving DecidableEq, Repr

/-- `RewardBreakdown`.  Note there is no separate lane-discipline field: the
source folds that term into `collisionPenalty` when reporting. -/
structure RewardBreakdown where
  progress : ℚ
  laneKeeping : ℚ
  comfort : ℚ
  ruleCompliance : ℚ
  cruiseTracking : ℚ
  gapKeeping : ℚ
  collisionPenalty : ℚ
  total : ℚ
deriving DecidableEq, Repr

/-- Stable ascending sort by longitudinal position, matching the stable
JavaScript `sort((a, b) => a.positionZ - b.positionZ)`. -/
def sortByZ (l : List EnvVehicle) : List EnvVehicle :=
  l.insertionSort fun a b => a.positionZ ≤ b.positionZ

/-- `DrivingEnvironment.buildObservation`. -/
def buildObservation (s : EnvState) : Observation :=
  let laneVehicles :=
    sortByZ (s.traffic.filter fun v => v.laneIndex == s.ego.laneIndex)
  let ahead := laneVehicles.find? fun v => s.ego.positionZ < v.positionZ
  let behind := laneVehicles.reverse.find? fun v => v.positionZ < s.ego.positionZ
  let prof :=
    ((profAt s.laneProfiles s.ego.laneIndex).orElse fun _ =>
      profAt s.laneProfiles 0).getD fallbackLaneProfile
  let gapAhead := match ahead with
    | some a => a.positionZ - s.ego.positionZ - a.lengthMeters * (1/2)
    | none => 120
  let gapBehind := match behind with
    | some b => s.ego.positionZ - b.positionZ - b.lengthMeters * (1/2)
    | none => 120
  { laneIndex := s.ego.laneIndex
    laneOffsetMeters := s.ego.laneOffset
    speedMps := s.ego.speedMps
    targetSpeedMps := mphToMps prof.targetSpeedMph
    cruiseTargetSpeedMps := s.mission.cruiseTargetSpeedMps
    cruiseGapMeters := s.mission.cruiseGapMeters
    gapAheadMeters := gapAhead
    gapBehindMeters := gapBehind
    relativeSpeedAheadMps := match ahead with
      | some a => a.speedMps - s.ego.speedMps
      | none => 0
    relativeSpeedBehindMps := match behind with
      | some b => b.speedMps - s.ego.speedMps
      | none => 0
    targetLaneIndex := s.mission.targetLaneIndex
    missionMode := s.mission.mode
    returnLaneIndex := s.mission.returnLaneIndex }

/-- `DrivingEnvironment.detectCollision`: a same-lane vehicle within
ego half-length + vehicle half-length + 3 m longitudinally whose lateral
offset is within ego half-width + vehicle half-width. -/
def detectCollision (s : EnvState) : Bool :=
  s.traffic.any fun v =>
    v.laneIndex == s.ego.laneIndex &&
    !(decide ((23/10 : ℚ) + v.lengthMeters * (1/2) + 3 < |v.positionZ - s.ego.positionZ|)) &&
    decide (|s.ego.laneOffset| < (9/10 : ℚ) + v.widthMeters * (1/2))

/-- `DrivingEnvironment.computeReward`. -/
def computeReward (cfg : EnvConfig) (mission : EnvMission) (o : Observation)
    (collision : Bool) (netAccel laneDelta : ℚ) : RewardBreakdown :=
  let progress := o.speedMps * cfg.timeStepSeconds
  let laneAlignment : ℚ := match mission.targetLaneIndex with
    | none => 0
    | some t => -(|t - (o.laneIndex : ℚ)|) * (35/100)
  let laneKeeping := -(|o.laneOffsetMeters|) * (1/10) + laneAlignment
  let comfort := -(|netAccel|) * (5/100)
  let ruleCompliance : ℚ :=
    if o.speedMps ≤ o.targetSpeedMps * (11/10) then 1/5 else -(2/5)
  let cruiseTracking := -(|o.speedMps - mission.cruiseTargetSpeedMps|) * (4/100)
  let gapTarget := mission.cruiseGapMeters
  let gapKeeping : ℚ :=
    if 0 < gapTarget then
      (if o.gapAheadMeters < gapTarget * (6/10) then
        -(|gapTarget - o.gapAheadMeters|) * (1/100) - 6/10
      else -(|gapTarget - o.gapAheadMeters|) * (1/100))
    else 0
  let collisionPenalty : ℚ := if collision then -25 else 0
  let laneDisciplinePenalty : ℚ := if 1/2 < |laneDelta| then -(1/5) else 0
  { progress := progress
    laneKeeping := laneKeeping
    comfort := comfort
    ruleCompliance := ruleCompliance
    cruiseTracking := cruiseTracking
    gapKeeping := gapKeeping
    collisionPenalty := collisionPenalty + laneDisciplinePenalty
    total := progress + laneKeeping + comfort + ruleCompliance +
      cruiseTracking + gapKeeping + collisionPenalty + laneDisciplinePenalty }

/-- The snapshot fields built by `DrivingEnvironment.buildSnapshot` that any
claim consumes (the wall-clock timestamp and presentation fields are
omitted; episode records only read the scene id). -/
structure EnvSnapshot where
  sceneId : String
  playerLaneIndex : ℤ
  playerPositionZ : ℚ
  playerSpeedMps : ℚ
  vehicles : List EnvVehicle
  collision : Bool
deriving DecidableEq, Repr

/-- `DrivingEnvironment.buildSnapshot`. -/
def buildSnapshot (s : EnvState) (collision : Bool) : EnvSnapshot :=
  { sceneId := liveSceneId
    playerLaneIndex := s.ego.laneIndex
    playerPositionZ := s.ego.positionZ
    playerSpeedMps := s.ego.speedMps
    vehicles := s.traffic
    collision := collision }

/-- `Math.sign`. -/
def jsSign (q : ℚ) : ℚ := if 0 < q then 1 else if q < 0 then -1 else 0

/-- The net acceleration computed by `DrivingEnvironment.step`:
throttle minus brake minus coast drag (drag reduced when accelerating). -/
def netAccelOf (cfg : EnvConfig) (a : DrivingAction) : ℚ :=
  let accelCommand := a.acceleration.getD 0
  let brakeCommand := a.brake.getD 0
  accelCommand * cfg.maxAccelMps2 - brakeCommand * cfg.maxBrakeMps2 -
    cfg.coastDragMps2 * (if accelCommand < 5/100 then 1 else 4/10)

/-- The ego speed after the longitudinal update of `step`:
speed plus netAccel times dt, clamped to [0, maxSpeed]. -/
def egoSpeedAfter (s : EnvState) (a : DrivingAction) : ℚ :=
  max 0 (min s.config.maxSpeedMps
    (s.ego.speedMps + netAccelOf s.config a * s.config.timeStepSeconds))

/-- The step result (`DrivingStepResult`). -/
structure StepResult where
  observation : Observation
  reward : RewardBreakdown
  done : Bool
  infoCollisions : ℕ
  infoLaneChanges : ℕ
  infoElapsedSeconds : ℚ
  snapshot : EnvSnapshot
deriving DecidableEq, Repr

/-- The requested lane resolved by `step`:
`action.requestedLaneIndex ?? mission.targetLaneIndex ?? ego.laneIndex`. -/
def requestedLaneOf (s : EnvState) (a : DrivingAction) : ℚ :=
  a.requestedLaneIndex.getD (s.mission.targetLaneIndex.getD (s.ego.laneIndex : ℚ))

/-- The ego state after the kinematic part of `step`: longitudinal update,
then the lateral lane-change accumulator — a lane index change is committed
only once the offset reaches half a lane width, the new index is clamped to
the lane bounds and the offset is reset to 0; with no lane request the
offset decays by 0.8. -/
def egoAfterStep (s : EnvState) (a : DrivingAction) : EgoState :=
  let dt := s.config.timeStepSeconds
  let newSpeed := egoSpeedAfter s a
  let newPosZ := s.ego.positionZ + newSpeed * dt
  let laneDelta := requestedLaneOf s a - (s.ego.laneIndex : ℚ)
  if 1/100 < |laneDelta| then
    let direction : ℤ := if 0 < laneDelta then 1 else -1
    let newOffset := s.ego.laneOffset + (direction : ℚ) * dt * (laneWidthMeters / (12/10))
    if laneWidthMeters * (1/2) ≤ |newOffset| then
      let clamped := max 0 (min ((s.laneProfiles.length : ℤ) - 1) (s.ego.laneIndex + direction))
      { s.ego with
        speedMps := newSpeed
        positionZ := newPosZ
        laneIndex := clamped
        laneOffset := 0 }
    else
      { s.ego with
        speedMps := newSpeed
        positionZ := newPosZ
        laneOffset := newOffset }
  else
    { s.ego with
      speedMps := newSpeed
      positionZ := newPosZ
      laneOffset := s.ego.laneOffset * (8/10) }

/-- The traffic update of `step`: advance every vehicle by speed times dt and
drop the ones past 1200 m (no spacing or lane-change logic). -/
def stepTraffic (s : EnvState) : List EnvVehicle :=
  (s.traffic.map fun v =>
    { v with positionZ := v.positionZ + v.speedMps * s.config.timeStepSeconds }).filter
    fun v => v.positionZ < 1200

/-- The environment state after the mutation part of `step`. -/
def stepState (s : EnvState) (a : DrivingAction) : EnvState :=
  { s with
    ego := egoAfterStep s a
    traffic := stepTraffic s
    elapsedSeconds := s.elapsedSeconds + s.config.timeStepSeconds }

/-- `DrivingEnvironment.step`. -/
def step (s : EnvState) (a : DrivingAction) : EnvState × StepResult :=
  let s2 := stepState s a
  let collision := detectCollision s2
  let obs := buildObservation s2
  let reward := computeReward s.config s.mission obs collision (netAccelOf s.config a)
    (requestedLaneOf s a - (s.ego.laneIndex : ℚ))
  let done := collision || decide (s.config.maxEpisodeSeconds ≤ s2.elapsedSeconds)
  (s2,
    { observation := obs
      reward := reward
      done := done
      infoCollisions := if collision then 1 else 0
      infoLaneChanges := if (egoAfterStep s a).laneIndex ≠ s.ego.laneIndex then 1 else 0
      infoElapsedSeconds := s2.elapsedSeconds
      snapshot := buildSnapshot s2 collision })

theorem step_fst (s : EnvState) (a : DrivingAction) : (step s a).1 = stepState s a := rfl

theorem step_done_def (s : EnvState) (a : DrivingAction) :
    (step s a).2.done
      = (detectCollision (stepState s a) ||
          decide (s.config.maxEpisodeSeconds ≤ (stepState s a).elapsedSeconds)) := rfl

theorem step_reward_def (s : EnvState) (a : DrivingAction) :
    (step s a).2.reward
      = computeReward s.config s.mission (buildObservation (stepState s a))
          (detectCollision (stepState s a)) (netAccelOf s.config a)
          (requestedLaneOf s a - (s.ego.laneIndex : ℚ)) := rfl

/-- The lateral update of `step` either leaves the lane index unchanged, or
commits a clamped one-lane move and resets the lateral offset. -/
theorem egoAfterStep_cases (s : EnvState) (a : DrivingAction) :
    (egoAfterStep s a).laneIndex = s.ego.laneIndex ∨
      ∃ d : ℤ, (egoAfterStep s a).laneIndex
          = max 0 (min ((s.laneProfiles.length : ℤ) - 1) (s.ego.laneIndex + d)) ∧
        (egoAfterStep s a).laneOffset = 0 := by
  unfold egoAfterStep
  dsimp only
  split_ifs <;>
    first
      | exact Or.inl rfl
      | exact Or.inr ⟨_, rfl, rfl⟩

/-- C10: after every step, for every action — including requested lane
indices far outside the lane range — the ego lane index stays inside
[0, laneCount-1]; whenever the step changes the lane index the lateral
offset is reset to 0 (the commit-and-clamp behaviour). -/
theorem c10_ego_lane_bounds (s : EnvState) (a : DrivingAction)
    (h0 : 0 ≤ s.ego.laneIndex)
    (h1 : s.ego.laneIndex < (s.laneProfiles.length : ℤ)) :
    0 ≤ (step s a).1.ego.laneIndex ∧
      (step s a).1.ego.laneIndex < (s.laneProfiles.length : ℤ) ∧
      ((step s a).1.ego.laneIndex ≠ s.ego.laneIndex →
        (step s a).1.ego.laneOffset = 0) := by
  have hs : (step s a).1.ego = egoAfterStep s a := rfl
  rw [hs]
  rcases egoAfterStep_cases s a with h | ⟨d, hl, ho⟩
  · exact ⟨h ▸ h0, h ▸ h1, fun hne => absurd h hne⟩
  · have hmin : min ((s.laneProfiles.length : ℤ) - 1) (s.ego.laneIndex + d)
        ≤ (s.laneProfiles.length : ℤ) - 1 := min_le_left _ _
    have h2 : max 0 (min ((s.laneProfiles.length : ℤ) - 1) (s.ego.laneIndex + d))
        ≤ max 0 ((s.laneProfiles.length : ℤ) - 1) := max_le_max le_rfl hmin
    have h3 : max (0:ℤ) ((s.laneProfiles.length : ℤ) - 1)
        = (s.laneProfiles.length : ℤ) - 1 := max_eq_right (by omega)
    rw [h3] at h2
    refine ⟨?_, ?_, fun _ => ho⟩
    · rw [hl]; exact le_max_left _ _
    · rw [hl]; linarith [h2]

/-- The mission in force during the concrete RL episodes below. -/
def envMissionHold : EnvMission :=
  { targetLaneIndex := some 2
    cruiseTargetSpeedMps := mphToMps 65
    cruiseGapMeters := 36
    mode := "cruise"
    returnLaneIndex := none
    laneChangeDirection := none }

/-- A concrete environment state: the ego stands in lane 2 at position 0,
speed 0, with a single traffic sedan in the same lane at the same position
(zero longitudinal gap) travelling at 40 m/s. -/
def envEscape : EnvState :=
  { config := defaultEnvConfig
    laneProfiles := liveLaneProfiles
    traffic := [⟨"t1", 2, 0, 40, 9/2, 9/5, "sedan"⟩]
    ego := ⟨2, 0, 0, 0, 0, 3⟩
    elapsedSeconds := 0
    episodeId := "e0"
    mission := envMissionHold }

/-- The hold-lane zero-command action: requested lane equals the current
lane 2, no throttle, no brake. -/
def actHold : DrivingAction :=
  { lateral := 0, acceleration := some 0, brake := some 0,
    requestedLaneIndex := some 2 }

/-- An action requesting lane 99, far outside the lane range. -/
def act99 : DrivingAction :=
  { lateral := 0, acceleration := some 0, brake := some 0,
    requestedLaneIndex := some 99 }

theorem c10_ego_lane_bounds_witness :
    0 ≤ (step envEscape act99).1.ego.laneIndex ∧
      (step envEscape act99).1.ego.laneIndex
        < (envEscape.laneProfiles.length : ℤ) ∧
      ((step envEscape act99).1.ego.laneIndex ≠ envEscape.ego.laneIndex →
        (step envEscape act99).1.ego.laneOffset = 0) :=
  c10_ego_lane_bounds envEscape act99 (by decide) (by decide)

/-- C6 counterexample: the traffic vehicle sits in the ego's lane at zero
longitudinal gap when `step` is called and the requested lane equals the
current lane, yet the step returns `done = false` and a zero collision
penalty: the vehicle travels 40 m/s while the ego stands still, so the
kinematic update moves it 8 m ahead, outside the 7.55 m collision
threshold, before collision detection runs. -/
theorem c6_counterexample :
    envEscape.traffic = [⟨"t1", 2, 0, 40, 9/2, 9/5, "sedan"⟩] ∧
    envEscape.ego.positionZ = 0 ∧ envEscape.ego.laneIndex = 2 ∧
    actHold.requestedLaneIndex = some ((2 : ℤ) : ℚ) ∧
    (step envEscape actHold).2.done = false ∧
    (step envEscape actHold).2.reward.collisionPenalty = 0 := by
  refine ⟨rfl, rfl, rfl, by norm_num [actHold], ?_, ?_⟩
  · rw [step_done_def]
    norm_num [stepState, stepTraffic, detectCollision, egoAfterStep,
      egoSpeedAfter, netAccelOf, requestedLaneOf, envEscape, actHold,
      defaultEnvConfig, envMissionHold, mphToMps, mphFactor, laneWidthMeters]
  · rw [step_reward_def]
    norm_num [stepState, stepTraffic, detectCollision, computeReward,
      egoAfterStep, egoSpeedAfter, netAccelOf, requestedLaneOf, envEscape,
      actHold, defaultEnvConfig, envMissionHold, mphToMps, mphFactor,
      laneWidthMeters]

/-- C6 (amended): if a traffic vehicle occupies the ego's lane at zero
longitudinal gap when `step` is called, the requested lane equals the
current lane, the ego's lateral offset is zero, and the relative motion of
the kinematic update keeps the pair within the 3 m collision slack (for
example when the vehicle's speed equals the ego's updated speed), then the
step returns `done = true` and the reported collision penalty is exactly
-25 (the lane-discipline adjustment is 0 because the lane delta is 0). -/
theorem c6_amended_collision_terminates (s : EnvState) (a : DrivingAction)
    (v : EnvVehicle) (hv : v ∈ s.traffic)
    (hlane : v.laneIndex = s.ego.laneIndex)
    (hz : v.positionZ = s.ego.positionZ)
    (hoff : s.ego.laneOffset = 0)
    (hreq : a.requestedLaneIndex = some (s.ego.laneIndex : ℚ))
    (hlen : 0 ≤ v.lengthMeters) (hwid : 0 ≤ v.widthMeters)
    (hrel : |(v.speedMps - egoSpeedAfter s a) * s.config.timeStepSeconds| ≤ 3)
    (hsurv : v.positionZ + v.speedMps * s.config.timeStepSeconds < 1200) :
    (step s a).2.done = true ∧ (step s a).2.reward.collisionPenalty = -25 := by
  have hld : requestedLaneOf s a - (s.ego.laneIndex : ℚ) = 0 := by
    simp [requestedLaneOf, hreq]
  have hego : egoAfterStep s a
      = { s.ego with
          speedMps := egoSpeedAfter s a
          positionZ := s.ego.positionZ + egoSpeedAfter s a * s.config.timeStepSeconds
          laneOffset := s.ego.laneOffset * (8/10) } := by
    unfold egoAfterStep
    dsimp only
    rw [hld]
    norm_num
  have hsego : (stepState s a).ego = egoAfterStep s a := rfl
  have hcoll : detectCollision (stepState s a) = true := by
    have hmem : ({ v with positionZ :=
        v.positionZ + v.speedMps * s.config.timeStepSeconds } : EnvVehicle)
        ∈ (stepState s a).traffic := by
      show _ ∈ stepTraffic s
      unfold stepTraffic
      refine List.mem_filter.mpr ⟨List.mem_map.mpr ⟨v, hv, rfl⟩, ?_⟩
      simpa using hsurv
    unfold detectCollision
    rw [List.any_eq_true]
    refine ⟨_, hmem, ?_⟩
    have hkey : v.positionZ + v.speedMps * s.config.timeStepSeconds -
        (stepState s a).ego.positionZ
        = (v.speedMps - egoSpeedAfter s a) * s.config.timeStepSeconds := by
      rw [hsego, hego]
      dsimp only
      rw [hz]
      ring
    have hoff2 : (stepState s a).ego.laneOffset = 0 := by
      rw [hsego, hego]
      dsimp only
      rw [hoff]
      ring
    have hlane2 : (stepState s a).ego.laneIndex = s.ego.laneIndex := by
      rw [hsego, hego]
    simp only [Bool.and_eq_true, beq_iff_eq, Bool.not_eq_true',
      decide_eq_false_iff_not, decide_eq_true_eq]
    refine ⟨⟨?_, ?_⟩, ?_⟩
    · rw [hlane2]
      exact hlane
    · dsimp only
      rw [hkey]
      intro hlt
      have habs := hrel
      linarith
    · rw [hoff2]
      simp only [abs_zero]
      linarith
  refine ⟨?_, ?_⟩
  · rw [step_done_def, hcoll]
    simp
  · rw [step_reward_def, hcoll]
    simp only [computeReward, hld]
    norm_num

/-- A concrete state for the C6 witness: same scene, but the ego travels at
10 m/s and the zero-gap vehicle travels at the ego's post-update speed
9.76 m/s, so the zero gap survives the kinematic update. -/
def envCollide : EnvState :=
  { envEscape with
    traffic := [⟨"w1", 2, 0, 244/25, 9/2, 9/5, "sedan"⟩]
    ego := ⟨2, 0, 10, 0, 0, 3⟩ }

theorem c6_amended_collision_terminates_witness :
    (step envCollide actHold).2.done = true ∧
      (step envCollide actHold).2.reward.collisionPenalty = -25 :=
  c6_amended_collision_terminates envCollide actHold
    ⟨"w1", 2, 0, 244/25, 9/2, 9/5, "sedan"⟩
    (by simp [envCollide]) rfl rfl rfl
    (by norm_num [actHold, envCollide])
    (by norm_num) (by norm_num)
    (by norm_num [egoSpeedAfter, netAccelOf, envCollide, envEscape, actHold,
      defaultEnvConfig, mphToMps, mphFactor])
    (by norm_num [envCollide, envEscape, defaultEnvConfig])

/-- The reward breakdown exactly as claim C7 words it: every term per the
spec formula, a `collisionPenalty` component equal to -25 on collision and 0
otherwise (with the lane-discipline term kept separate, entering only the
total), and no positivity guard on the gap target. -/
def claimReward (cfg : EnvConfig) (mission : EnvMission) (o : Observation)
    (collision : Bool) (netAccel laneDelta : ℚ) : RewardBreakdown :=
  let progress := o.speedMps * cfg.timeStepSeconds
  let laneAlignment : ℚ := match mission.targetLaneIndex with
    | none => 0
    | some t => -(35/100) * |t - (o.laneIndex : ℚ)|
  let laneKeeping := -(1/10) * |o.laneOffsetMeters| + laneAlignment
  let comfort := -(5/100) * |netAccel|
  let ruleCompliance : ℚ :=
    if o.speedMps ≤ o.targetSpeedMps * (11/10) then 1/5 else -(2/5)
  let cruiseTracking := -(4/100) * |o.speedMps - mission.cruiseTargetSpeedMps|
  let gapKeeping : ℚ :=
    -(1/100) * |mission.cruiseGapMeters - o.gapAheadMeters| +
      (if o.gapAheadMeters < mission.cruiseGapMeters * (6/10) then -(6/10) else 0)
  let collisionPenalty : ℚ := if collision then -25 else 0
  let laneDisciplinePenalty : ℚ := if 1/2 < |laneDelta| then -(1/5) else 0
  { progress := progress
    laneKeeping := laneKeeping
    comfort := comfort
    ruleCompliance := ruleCompliance
    cruiseTracking := cruiseTracking
    gapKeeping := gapKeeping
    collisionPenalty := collisionPenalty
    total := progress + laneKeeping + comfort + ruleCompliance +
      cruiseTracking + gapKeeping + collisionPenalty + laneDisciplinePenalty }

/-- A concrete observation for the C7 counterexample: centred in lane 0 at
zero speed with an empty road ahead. -/
def obsA : Observation :=
  { laneIndex := 0
    laneOffsetMeters := 0
    speedMps := 0
    targetSpeedMps := 10
    cruiseTargetSpeedMps := 0
    cruiseGapMeters := 36
    gapAheadMeters := 120
    gapBehindMeters := 120
    relativeSpeedAheadMps := 0
    relativeSpeedBehindMps := 0
    targetLaneIndex := none
    missionMode := "cruise"
    returnLaneIndex := none }

/-- A concrete mission for the C7 counterexample. -/
def envMissionA : EnvMission :=
  { targetLaneIndex := none
    cruiseTargetSpeedMps := 0
    cruiseGapMeters := 36
    mode := "cruise"
    returnLaneIndex := none
    laneChangeDirection := none }

/-- C7 counterexample: on a step with no collision but a persisting lane
delta of 1, the reported `collisionPenalty` field is -0.2 (the
lane-discipline term is folded into it), not the 0 the claim formula gives,
so the reported breakdown differs from the claim formula. -/
theorem c7_counterexample :
    (computeReward defaultEnvConfig envMissionA obsA false 0 1).collisionPenalty
      = -(1/5) ∧
    (claimReward defaultEnvConfig envMissionA obsA false 0 1).collisionPenalty
      = 0 ∧
    computeReward defaultEnvConfig envMissionA obsA false 0 1
      ≠ claimReward defaultEnvConfig envMissionA obsA false 0 1 := by
  have h1 : (computeReward defaultEnvConfig envMissionA obsA false 0 1).collisionPenalty
      = -(1/5) := by
    norm_num [computeReward, envMissionA, obsA]
  have h2 : (claimReward defaultEnvConfig envMissionA obsA false 0 1).collisionPenalty
      = 0 := by
    norm_num [claimReward, envMissionA, obsA]
  refine ⟨h1, h2, fun h => ?_⟩
  rw [h, h2] at h1
  norm_num at h1

/-- The reward formula as amended: identical to the claim formula except
that (a) the reported `collisionPenalty` field carries the sum of the
collision penalty and the lane-discipline penalty (the record has no
separate lane-discipline field), and (b) `gapKeeping` is 0 whenever the gap
target is not positive. -/
def specRewardFormula (cfg : EnvConfig) (mission : EnvMission) (o : Observation)
    (collision : Bool) (netAccel laneDelta : ℚ) : RewardBreakdown :=
  let progress := o.speedMps * cfg.timeStepSeconds
  let laneAlignment : ℚ := match mission.targetLaneIndex with
    | none => 0
    | some t => -(35/100) * |t - (o.laneIndex : ℚ)|
  let laneKeeping := -(1/10) * |o.laneOffsetMeters| + laneAlignment
  let comfort := -(5/100) * |netAccel|
  let ruleCompliance : ℚ :=
    if o.speedMps ≤ o.targetSpeedMps * (11/10) then 1/5 else -(2/5)
  let cruiseTracking := -(4/100) * |o.speedMps - mission.cruiseTargetSpeedMps|
  let gapKeeping : ℚ :=
    if 0 < mission.cruiseGapMeters then
      -(1/100) * |mission.cruiseGapMeters - o.gapAheadMeters| +
        (if o.gapAheadMeters < mission.cruiseGapMeters * (6/10) then -(6/10) else 0)
    else 0
  let collisionPenalty : ℚ := if collision then -25 else 0
  let laneDisciplinePenalty : ℚ := if 1/2 < |laneDelta| then -(1/5) else 0
  { progress := progress
    laneKeeping := laneKeeping
    comfort := comfort
    ruleCompliance := ruleCompliance
    cruiseTracking := cruiseTracking
    gapKeeping := gapKeeping
    collisionPenalty := collisionPenalty + laneDisciplinePenalty
    total := progress + laneKeeping + comfort + ruleCompliance +
      cruiseTracking + gapKeeping + collisionPenalty + laneDisciplinePenalty }

/-- C7 (amended): for every step input, the reward breakdown computed by the
environment equals the spec formula amended as in `specRewardFormula`; in
particular every term weight is exactly as specified and the reported total
is the sum of the eight terms. -/
theorem c7_amended_reward_formula (cfg : EnvConfig) (mission : EnvMission)
    (o : Observation) (collision : Bool) (netAccel laneDelta : ℚ) :
    computeReward cfg mission o collision netAccel laneDelta
      = specRewardFormula cfg mission o collision netAccel laneDelta := by
  unfold computeReward specRewardFormula
  dsimp only
  cases mission.targetLaneIndex
  all_goals (
    rw [RewardBreakdown.mk.injEq]
    refine ⟨rfl, by ring, by ring, rfl, by ring, by split_ifs <;> ring, rfl,
      by split_ifs <;> ring⟩)

/-- `TrafficBehaviorProfile`. -/
inductive Behavior where
  | steady
  | assertive
  | cautious
deriving DecidableEq, Repr

/-- `SimulationService.randomBias`. -/
def behaviorBias : Behavior → ℚ
  | .assertive => 27/25
  | .cautious => 23/25
  | .steady => 1

/-- The fixed `BEHAVIOR_PROFILES` table. -/
def behaviorTable : List Behavior := [.steady, .assertive, .cautious]

/-- The fixed `VEHICLE_DIMENSIONS` table: kind, length, width. -/
def vehicleDims : List (String × ℚ × ℚ) :=
  [("sedan", 9/2, 9/5), ("suv", 49/10, 2), ("truck", 13/2, 5/2),
   ("motorcycle", 11/5, 4/5)]

/-- `TrafficVehicleState`: a live-engine traffic vehicle. -/
structure TrafficVeh where
  id : String
  laneIndex : ℤ
  positionZ : ℚ
  speedMps : ℚ
  targetSpeedMps : ℚ
  kind : String
  behavior : Behavior
  lengthMeters : ℚ
  widthMeters : ℚ
deriving DecidableEq, Repr

/-- `randBetween(lo, hi)` with the `Math.random()` draw in [0, 1) made an
explicit input. -/
def randBetween (frac lo hi : ℚ) : ℚ := lo + frac * (hi - lo)

/-- The per-vehicle speed-and-position update of `SimulationService.step`:
desired speed is the target jittered by `randBetween(-1,1) * 0.4` and
clamped to the behaviour-scaled lane band, the current speed is blended
toward it at rate `min(1, dt*1.4)` and re-clamped, and the position
advances by speed times dt.  A vehicle on a lane without a profile is left
untouched (it is skipped by the update loop). -/
def updateVehicle (profiles : List LaneProfile) (dt jitter : ℚ)
    (v : TrafficVeh) : TrafficVeh :=
  match profAt profiles v.laneIndex with
  | none => v
  | some lp =>
    let bias := behaviorBias v.behavior
    let minS := mphToMps lp.minSpeedMph * bias
    let maxS := mphToMps lp.maxSpeedMph * bias
    let desired :=
      max minS (min maxS (v.targetSpeedMps + randBetween jitter (-1) 1 * (4/10)))
    let sp1 := v.speedMps + (desired - v.speedMps) * min 1 (dt * (14/10))
    let sp2 := max minS (min maxS sp1)
    { v with speedMps := sp2, positionZ := v.positionZ + sp2 * dt }

/-- The speed-and-position phase over the whole master list (index-carrying
recursion so each vehicle gets its own random draw). -/
def updatePhaseFrom (profiles : List LaneProfile) (dt : ℚ) (jitter : ℕ → ℚ) :
    ℕ → List TrafficVeh → List TrafficVeh
  | _, [] => []
  | i, v :: rest =>
    updateVehicle profiles dt (jitter i) v ::
      updatePhaseFrom profiles dt jitter (i + 1) rest

def updatePhase (profiles : List LaneProfile) (dt : ℚ) (jitter : ℕ → ℚ)
    (vs : List TrafficVeh) : List TrafficVeh :=
  updatePhaseFrom profiles dt jitter 0 vs

/-- Stable ascending sort by position, matching the stable JavaScript
`sort((a, b) => a.positionZ - b.positionZ)`. -/
def sortTrafficAsc (l : List TrafficVeh) : List TrafficVeh :=
  l.insertionSort fun a b => a.positionZ ≤ b.positionZ

/-- Stable descending sort by position (`sort((a, b) => b.positionZ - a.positionZ)`). -/
def sortTrafficDesc (l : List TrafficVeh) : List TrafficVeh :=
  l.insertionSort fun a b => b.positionZ ≤ a.positionZ

/-- The per-lane vehicle array (`laneMap.get(lane)`), derived from the
master list: the engine keeps these arrays sorted ascending during the
lane-change pass.  `findNeighbors` skips the subject by object identity,
modelled here by the (unique) vehicle id. -/
def laneView (vs : List TrafficVeh) (lane : ℤ) : List TrafficVeh :=
  sortTrafficAsc (vs.filter fun v => v.laneIndex == lane)

/-- `SimulationService.findNeighbors`: the nearest vehicle ahead (smallest
position at or past the subject) and behind (largest position strictly
before it), skipping the subject itself. -/
def findNeighbors (laneVehicles : List TrafficVeh) (v : TrafficVeh) :
    Option TrafficVeh × Option TrafficVeh :=
  laneVehicles.foldl
    (fun acc c =>
      if c.id == v.id then acc
      else if v.positionZ ≤ c.positionZ then
        match acc.1 with
        | none => (some c, acc.2)
        | some a => if c.positionZ < a.positionZ then (some c, acc.2) else acc
      else
        match acc.2 with
        | none => (acc.1, some c)
        | some b => if b.positionZ < c.positionZ then (acc.1, some c) else acc)
    (none, none)

/-- Longitudinal gap from a leader to a follower: centre-to-centre distance
minus the two half-lengths. -/
def gapOf (lead foll : TrafficVeh) : ℚ :=
  lead.positionZ - foll.positionZ - lead.lengthMeters * (1/2) -
    foll.lengthMeters * (1/2)

/-- The forward gap to an optional neighbour; `none` is JavaScript
`Infinity`. -/
def gapAheadOf (n : Option TrafficVeh) (v : TrafficVeh) : Option ℚ :=
  n.map fun a => gapOf a v

/-- The rearward gap to an optional neighbour; `none` is `Infinity`. -/
def gapBehindOf (n : Option TrafficVeh) (v : TrafficVeh) : Option ℚ :=
  n.map fun b => gapOf v b

/-- `g < bound` with `g` possibly `Infinity` (then false). -/
def gapLt (g : Option ℚ) (bound : ℚ) : Bool :=
  match g with
  | none => false
  | some x => decide (x < bound)

/-- `g > bound` with `g` possibly `Infinity` (then true). -/
def gapGt (g : Option ℚ) (bound : ℚ) : Bool :=
  match g with
  | none => true
  | some x => decide (bound < x)

/-- Lane-change score `forwardGap + 12 * speedGain`; `none` is `Infinity`
(an empty candidate lane). -/
def scoreOf (gapAhead : Option ℚ) (gain : ℚ) : Option ℚ :=
  gapAhead.map fun g => g + gain * 12

/-- `a > b` on scores with `Infinity` semantics. -/
def scoreGt (a b : Option ℚ) : Bool :=
  match a, b with
  | none, none => false
  | none, some _ => true
  | some _, none => false
  | some x, some y => decide (y < x)

/-- One candidate step of the `evaluateLaneChange` scoring loop: reject the
candidate if either gap is below 85 percent of its preferred spacing (the
hard safety gate), otherwise keep the higher-scoring of it and the current
best (the first candidate wins ties). -/
def laneChangeCandidateStep (profiles : List LaneProfile) (vs : List TrafficVeh)
    (v : TrafficVeh) (curProf : LaneProfile) (best : Option (ℤ × Option ℚ))
    (lane : ℤ) : Option (ℤ × Option ℚ) :=
  match profAt profiles lane with
  | none => best
  | some tp =>
    let laneVehicles := laneView vs lane
    let nb := findNeighbors laneVehicles v
    let gA := gapAheadOf nb.1 v
    let gB := gapBehindOf nb.2 v
    let minGap := tp.preferredSpacingMeters * (85/100)
    if gapLt gA minGap || gapLt gB minGap then best
    else
      let gain := mphToMps tp.targetSpeedMph - mphToMps curProf.targetSpeedMph
      let sc := scoreOf gA gain
      match best with
      | none => some (lane, sc)
      | some (_, bs) => if scoreGt sc bs then some (lane, sc) else best

/-- `SimulationService.evaluateLaneChange`, decision part: `none` means the
vehicle keeps its lane (comfortable and not fast, or no candidate passed
the safety gate); `some c` is the chosen destination lane. -/
def laneChangeDecision (profiles : List LaneProfile) (vs : List TrafficVeh)
    (v : TrafficVeh) : Option ℤ :=
  match profAt profiles v.laneIndex with
  | none => none
  | some curProf =>
    let currentLaneVehicles := laneView vs v.laneIndex
    let nb := findNeighbors currentLaneVehicles v
    let gapAhead := gapAheadOf nb.1 v
    let maxLaneSpeedMps := mphToMps curProf.maxSpeedMph
    let comfortableGap := curProf.preferredSpacingMeters * (65/100)
    if gapGt gapAhead comfortableGap &&
        decide (v.speedMps ≤ maxLaneSpeedMps * (98/100)) then
      none
    else
      let candidates := [v.laneIndex - 1, v.laneIndex + 1].filter fun lane =>
        decide (0 ≤ lane) && decide (lane < (profiles.length : ℤ))
      (candidates.foldl (laneChangeCandidateStep profiles vs v curProf)
        none).map Prod.fst

/-- `evaluateLaneChange`, mutation part, applied to the vehicle at master
index `i`: on a chosen change the lane index is reassigned, the position is
nudged by `randBetween(-3, 3)` and the target speed is resampled uniformly
within the destination lane's band. -/
def applyLaneChange (profiles : List LaneProfile) (vs : List TrafficVeh)
    (i : ℕ) (nudgeFrac resampleFrac : ℚ) : List TrafficVeh :=
  match vs.get? i with
  | none => vs
  | some v =>
    match laneChangeDecision profiles vs v with
    | none => vs
    | some c =>
      match profAt profiles c with
      | none =>
        vs.set i { v with
          laneIndex := c
          positionZ := v.positionZ + randBetween nudgeFrac (-3) 3 }
      | some tp =>
        vs.set i { v with
          laneIndex := c
          positionZ := v.positionZ + randBetween nudgeFrac (-3) 3
          targetSpeedMps :=
            mphToMps (randBetween resampleFrac tp.minSpeedMph tp.maxSpeedMph) }

/-- `SimulationService.handleLaneChanges`: every vehicle of the master list
is evaluated once, in master order, against the evolving per-lane views. -/
def laneChangePhase (profiles : List LaneProfile) (nudges resamples : ℕ → ℚ)
    (vs : List TrafficVeh) : List TrafficVeh :=
  (List.range vs.length).foldl
    (fun acc i => applyLaneChange profiles acc i (nudges i) (resamples i)) vs

/-- The spacing-correction walk down one sorted (lead-to-trail) lane array:
each follower whose gap to the (already corrected) vehicle ahead is below
the lane minimum is relocated to exactly the minimum gap behind it and its
speed capped at 90 percent of the leader's. -/
def enforceFrom (minGap : ℚ) (lead : TrafficVeh) :
    List TrafficVeh → List TrafficVeh
  | [] => []
  | foll :: rest =>
    let foll2 :=
      if gapOf lead foll < minGap then
        { foll with
          positionZ := lead.positionZ -
            (minGap + lead.lengthMeters * (1/2) + foll.lengthMeters * (1/2))
          speedMps := min foll.speedMps (lead.speedMps * (9/10)) }
      else foll
    foll2 :: enforceFrom minGap foll2 rest

def enforceSpacing (minGap : ℚ) : List TrafficVeh → List TrafficVeh
  | [] => []
  | lead :: rest => lead :: enforceFrom minGap lead rest

/-- One corrected lane of the spacing phase: the lane's vehicles sorted
lead-to-trail and walked by the spacing correction. -/
def laneGroup (profiles : List LaneProfile) (vs : List TrafficVeh)
    (lane : ℕ) : List TrafficVeh :=
  match profiles.get? lane with
  | none => []
  | some lp =>
    enforceSpacing lp.preferredSpacingMeters
      (sortTrafficDesc (vs.filter fun v => v.laneIndex == (lane : ℤ)))

/-- The per-lane spacing phase of `step`.  The engine keeps every vehicle in
its master array and corrects the per-lane views in place; since the master
order is observable only through snapshots (which no claim orders by), the
corrected lanes are reassembled here lane by lane, with vehicles on lanes
without a profile (never produced by spawn) passed through uncorrected. -/
def spacingPhase (profiles : List LaneProfile) (vs : List TrafficVeh) :
    List TrafficVeh :=
  ((List.range profiles.length).map (laneGroup profiles vs)).flatten
  ++ vs.filter fun v =>
      !(decide (0 ≤ v.laneIndex) && decide (v.laneIndex < (profiles.length : ℤ)))

/-- The despawn phase: drop vehicles past 2200 m or behind -1200 m
(`RESPAWN_OFFSET_METERS * 1.5`). -/
def despawnPhase (vs : List TrafficVeh) : List TrafficVeh :=
  vs.filter fun v => decide (v.positionZ ≤ 2200) && decide (-1200 ≤ v.positionZ)

/-- The random draws consumed by one `spawnVehicle` call. -/
structure SpawnDraw where
  roll : ℚ
  dimsIdx : ℕ
  behaviorIdx : ℕ
  uuid : String
  baseFrac : ℚ
  speedFrac : ℚ

/-- `SimulationService.spawnVehicle`: fails on a lane index without a
profile; otherwise draws dimensions and behaviour from the fixed tables,
a base speed uniformly within the lane band (used only when no explicit
speed is given, scaled by the behaviour bias), and builds the vehicle. -/
def spawnVehicleState (profiles : List LaneProfile) (lane : ℤ)
    (speedMph posZ : Option ℚ) (kind : Option String)
    (behavior : Option Behavior) (d : SpawnDraw) : Except String TrafficVeh :=
  match profAt profiles lane with
  | none => .error "Invalid lane index"
  | some lp =>
    let dims := (vehicleDims.get? (d.dimsIdx % vehicleDims.length)).getD
      ("sedan", 9/2, 9/5)
    let beh := behavior.getD
      ((behaviorTable.get? (d.behaviorIdx % behaviorTable.length)).getD .steady)
    let base := randBetween d.baseFrac lp.minSpeedMph lp.maxSpeedMph
    let target := speedMph.getD (base * behaviorBias beh)
    .ok { id := d.uuid
          laneIndex := lane
          positionZ := posZ.getD (-800)
          speedMps := mphToMps target
          targetSpeedMps := mphToMps target
          kind := kind.getD dims.1
          behavior := beh
          lengthMeters := dims.2.1
          widthMeters := dims.2.2 }

/-- One lane of `spawnNewVehicles`: draw the spawn event with probability
`(spawnRatePerMinute / 60) * dt`; skip when the closest-to-origin vehicle
behind the corridor start is within the preferred spacing of the spawn
point (a centre-to-centre test); otherwise spawn at -800 m with a speed
drawn uniformly within the lane band. -/
def spawnLane (profiles : List LaneProfile) (dt : ℚ) (lane : ℕ)
    (d : SpawnDraw) (vs : List TrafficVeh) : List TrafficVeh :=
  match profiles.get? lane with
  | none => vs
  | some lp =>
    let prob := lp.spawnRatePerMinute / 60 * dt
    if prob < d.roll then vs
    else
      let laneVehicles := vs.filter fun v => v.laneIndex == (lane : ℤ)
      let behind := sortTrafficDesc (laneVehicles.filter fun v =>
        decide (v.positionZ < 0))
      let tooClose := match behind.head? with
        | some cb => decide (|cb.positionZ - (-800)| < lp.preferredSpacingMeters)
        | none => false
      if tooClose then vs
      else
        match spawnVehicleState profiles (lane : ℤ)
          (some (randBetween d.speedFrac lp.minSpeedMph lp.maxSpeedMph))
          (some (-800)) none none d with
        | .ok nv => vs ++ [nv]
        | .error _ => vs

/-- `SimulationService.spawnNewVehicles` over all lanes. -/
def spawnPhase (profiles : List LaneProfile) (dt : ℚ) (draws : ℕ → SpawnDraw)
    (vs : List TrafficVeh) : List TrafficVeh :=
  (List.range profiles.length).foldl
    (fun acc lane => spawnLane profiles dt lane (draws lane) acc) vs

/-- All random draws consumed by one tick. -/
structure TickDraws where
  jitter : ℕ → ℚ
  nudge : ℕ → ℚ
  resample : ℕ → ℚ
  spawn : ℕ → SpawnDraw

/-- The phases of one tick up to and including despawn (everything except
the spawn lifecycle). -/
def tickPhases (profiles : List LaneProfile) (dt : ℚ) (r : TickDraws)
    (vs : List TrafficVeh) : List TrafficVeh :=
  despawnPhase (spacingPhase profiles
    (laneChangePhase profiles r.nudge r.resample
      (updatePhase profiles dt r.jitter vs)))

/-- One tick of `SimulationService.step` without the spawn phase; `dtRaw`
is the wall-clock delta in seconds, capped at 0.5 s, and a non-positive
delta skips the tick. -/
def coreTick (profiles : List LaneProfile) (dtRaw : ℚ) (r : TickDraws)
    (vs : List TrafficVeh) : List TrafficVeh :=
  let dt := min (1/2) dtRaw
  if dt ≤ 0 then vs else tickPhases profiles dt r vs

/-- One full tick of `SimulationService.step`, spawn lifecycle included. -/
def tick (profiles : List LaneProfile) (dtRaw : ℚ) (r : TickDraws)
    (vs : List TrafficVeh) : List TrafficVeh :=
  let dt := min (1/2) dtRaw
  if dt ≤ 0 then vs else spawnPhase profiles dt r.spawn (tickPhases profiles dt r vs)

/-- The hard safety gate of the lane-change heuristic, for a vehicle `v`
and a candidate lane `c` evaluated against the pre-correction vehicle set
`vs`: the candidate lane has a profile and neither the forward nor the
rearward gap in it is below 85 percent of its preferred spacing. -/
def laneGateOk (profiles : List LaneProfile) (vs : List TrafficVeh)
    (v : TrafficVeh) (c : ℤ) : Prop :=
  ∃ tp, profAt profiles c = some tp ∧
    gapLt (gapAheadOf (findNeighbors (laneView vs c) v).1 v)
      (tp.preferredSpacingMeters * (85/100)) = false ∧
    gapLt (gapBehindOf (findNeighbors (laneView vs c) v).2 v)
      (tp.preferredSpacingMeters * (85/100)) = false

theorem laneChangeCandidateStep_gate (profiles : List LaneProfile)
    (vs : List TrafficVeh) (v : TrafficVeh) (curProf : LaneProfile)
    (best : Option (ℤ × Option ℚ)) (lane : ℤ)
    (hbest : ∀ c sc, best = some (c, sc) → laneGateOk profiles vs v c) :
    ∀ c sc, laneChangeCandidateStep profiles vs v curProf best lane
      = some (c, sc) → laneGateOk profiles vs v c := by
  intro c sc h
  unfold laneChangeCandidateStep at h
  cases hp : profAt profiles lane with
  | none =>
    rw [hp] at h
    exact hbest c sc h
  | some tp =>
    rw [hp] at h
    dsimp only at h
    by_cases hgate : (gapLt (gapAheadOf (findNeighbors (laneView vs lane) v).1 v)
        (tp.preferredSpacingMeters * (85/100)) ||
      gapLt (gapBehindOf (findNeighbors (laneView vs lane) v).2 v)
        (tp.preferredSpacingMeters * (85/100))) = true
    · rw [if_pos hgate] at h
      exact hbest c sc h
    · rw [if_neg hgate] at h
      have hboth := Bool.or_eq_false_iff.mp (Bool.not_eq_true _ |>.mp hgate)
      cases hb : best with
      | none =>
        rw [hb] at h
        cases h
        exact ⟨tp, hp, hboth.1, hboth.2⟩
      | some p =>
        rw [hb] at h
        obtain ⟨pl, ps⟩ := p
        dsimp only at h
        by_cases hsc : scoreGt
            (scoreOf (gapAheadOf (findNeighbors (laneView vs lane) v).1 v)
              (mphToMps tp.targetSpeedMph - mphToMps curProf.targetSpeedMph)) ps = true
        · rw [if_pos hsc] at h
          cases h
          exact ⟨tp, hp, hboth.1, hboth.2⟩
        · rw [if_neg hsc] at h
          exact hbest c sc (hb ▸ h)

theorem laneChangeFold_gate (profiles : List LaneProfile)
    (vs : List TrafficVeh) (v : TrafficVeh) (curProf : LaneProfile) :
    ∀ (cands : List ℤ) (b0 : Option (ℤ × Option ℚ)),
      (∀ c sc, b0 = some (c, sc) → laneGateOk profiles vs v c) →
      ∀ c sc, cands.foldl (laneChangeCandidateStep profiles vs v curProf) b0
        = some (c, sc) → laneGateOk profiles vs v c := by
  intro cands
  induction cands with
  | nil => intro b0 h0 c sc h; exact h0 c sc h
  | cons lane rest ih =>
    intro b0 h0 c sc h
    exact ih _ (laneChangeCandidateStep_gate profiles vs v curProf b0 lane h0) c sc h

/-- C3: the lane-change heuristic never reassigns a vehicle to a candidate
lane in which the forward or rearward gap, measured against that lane's
pre-correction vehicle set, is below 85 percent of the candidate lane's
preferred spacing; and when no candidate passes the gate (the decision is
`none`), the lane-change pass leaves the vehicle list unchanged. -/
theorem c3_lane_change_safety_gate (profiles : List LaneProfile)
    (vs : List TrafficVeh) (v : TrafficVeh) :
    (∀ c, laneChangeDecision profiles vs v = some c →
      laneGateOk profiles vs v c) ∧
    (∀ i n r, laneChangeDecision profiles vs v = none → vs.get? i = some v →
      applyLaneChange profiles vs i n r = vs) := by
  constructor
  · intro c hdec
    unfold laneChangeDecision at hdec
    cases hp : profAt profiles v.laneIndex with
    | none => rw [hp] at hdec; cases hdec
    | some curProf =>
      rw [hp] at hdec
      dsimp only at hdec
      by_cases hskip : (gapGt
          (gapAheadOf (findNeighbors (laneView vs v.laneIndex) v).1 v)
          (curProf.preferredSpacingMeters * (65/100)) &&
        decide (v.speedMps ≤ mphToMps curProf.maxSpeedMph * (98/100))) = true
      · rw [if_pos hskip] at hdec; cases hdec
      · rw [if_neg hskip] at hdec
        rcases Option.map_eq_some'.mp hdec with ⟨⟨cl, cs⟩, hfold, hfst⟩
        cases hfst
        exact laneChangeFold_gate profiles vs v curProf _ none
          (fun c sc h => by cases h) cl cs hfold
  · intro i n r hdec hget
    simp only [List.get?_eq_getElem?] at hget
    simp [applyLaneChange, hget, hdec]

/-- A scenario with a tight gap in the only adjacent lane: the subject in
lane 0 is blocked 7.5 m behind a leader (below the comfortable 29.25 m), and
the only candidate lane 1 has a vehicle 1.5 m ahead, far below 85 percent of
lane 1's 38 m preferred spacing. -/
def tightVeh : TrafficVeh := ⟨"s0", 0, 0, 30, 30, "sedan", .steady, 9/2, 9/5⟩

def tightVs : List TrafficVeh :=
  [tightVeh, ⟨"s1", 0, 12, 30, 30, "sedan", .steady, 9/2, 9/5⟩,
   ⟨"s2", 1, 6, 30, 30, "sedan", .steady, 9/2, 9/5⟩]

theorem c3_lane_change_safety_gate_witness :
    laneChangeDecision liveLaneProfiles tightVs tightVeh = none ∧
    applyLaneChange liveLaneProfiles tightVs 0 (1/2) (1/2) = tightVs := by
  have hdec : laneChangeDecision liveLaneProfiles tightVs tightVeh = none := by
    have hne1 : ¬("s1" = "s0") := by decide
    have hne2 : ¬("s2" = "s0") := by decide
    norm_num [hne1, hne2, laneChangeDecision, laneChangeCandidateStep, laneView,
      sortTrafficAsc, List.insertionSort, List.orderedInsert, findNeighbors,
      gapAheadOf, gapBehindOf, gapLt, gapGt, gapOf, scoreOf, scoreGt, profAt,
      liveLaneProfiles_eq, mphToMps, mphFactor, behaviorBias, tightVs, tightVeh,
      min_def, max_def]
  exact ⟨hdec,
    (c3_lane_change_safety_gate liveLaneProfiles tightVs tightVeh).2
      0 (1/2) (1/2) hdec rfl⟩

/-- The spacing invariant for one leader-follower pair: the longitudinal
gap (centre-to-centre minus half-lengths) is at least the lane minimum. -/
def gapOk (minGap : ℚ) (lead foll : TrafficVeh) : Prop :=
  minGap ≤ gapOf lead foll

theorem enforceFrom_chain (minGap : ℚ) :
    ∀ (rest : List TrafficVeh) (lead : TrafficVeh),
      List.Chain (gapOk minGap) lead (enforceFrom minGap lead rest) := by
  intro rest
  induction rest with
  | nil => intro lead; exact List.Chain.nil
  | cons foll rest ih =>
    intro lead
    unfold enforceFrom
    dsimp only
    by_cases h : gapOf lead foll < minGap
    · rw [if_pos h]
      refine List.Chain.cons ?_ (ih _)
      show minGap ≤ gapOf lead _
      unfold gapOf
      dsimp only
      ring_nf
      unfold gapOf at h
      linarith
    · rw [if_neg h]
      exact List.Chain.cons (le_of_not_lt h) (ih _)

theorem enforceSpacing_chain (minGap : ℚ) (l : List TrafficVeh) :
    List.Chain' (gapOk minGap) (enforceSpacing minGap l) := by
  cases l with
  | nil => trivial
  | cons lead rest => exact enforceFrom_chain minGap rest lead

theorem enforceFrom_mem (minGap : ℚ) :
    ∀ (rest : List TrafficVeh) (lead v : TrafficVeh),
      v ∈ enforceFrom minGap lead rest →
      ∃ w ∈ rest, v.laneIndex = w.laneIndex ∧ v.lengthMeters = w.lengthMeters := by
  intro rest
  induction rest with
  | nil => intro lead v hv; cases hv
  | cons foll rest ih =>
    intro lead v hv
    unfold enforceFrom at hv
    dsimp only at hv
    rcases List.mem_cons.mp hv with rfl | hv2
    · refine ⟨foll, List.mem_cons_self _ _, ?_⟩
      by_cases h : gapOf lead foll < minGap
      · rw [if_pos h]; exact ⟨rfl, rfl⟩
      · rw [if_neg h]; exact ⟨rfl, rfl⟩
    · obtain ⟨w, hw, hlw⟩ := ih _ v hv2
      exact ⟨w, List.mem_cons_of_mem _ hw, hlw⟩

theorem enforceSpacing_mem (minGap : ℚ) (l : List TrafficVeh) (v : TrafficVeh)
    (hv : v ∈ enforceSpacing minGap l) :
    ∃ w ∈ l, v.laneIndex = w.laneIndex ∧ v.lengthMeters = w.lengthMeters := by
  cases l with
  | nil => cases hv
  | cons lead rest =>
    rcases List.mem_cons.mp hv with rfl | hv2
    · exact ⟨v, List.mem_cons_self _ _, rfl, rfl⟩
    · obtain ⟨w, hw, hlw⟩ := enforceFrom_mem minGap rest lead v hv2
      exact ⟨w, List.mem_cons_of_mem _ hw, hlw⟩

theorem chain_rel_all (minGap : ℚ) (hg : 0 ≤ minGap) :
    ∀ (t : List TrafficVeh) (a : TrafficVeh),
      List.Chain (gapOk minGap) a t → (∀ v ∈ t, 0 ≤ v.lengthMeters) →
      ∀ b ∈ t, gapOk minGap a b := by
  intro t
  induction t with
  | nil => intro a _ _ b hb; cases hb
  | cons c t ih =>
    intro a hch hlen b hb
    rcases List.chain_cons.mp hch with ⟨hac, hct⟩
    rcases List.mem_cons.mp hb with rfl | hb2
    · exact hac
    · have hcb := ih c hct (fun v hv => hlen v (List.mem_cons_of_mem _ hv)) b hb2
      have hcl : 0 ≤ c.lengthMeters := hlen c (List.mem_cons_self _ _)
      unfold gapOk gapOf at hac hcb ⊢
      linarith

/-- Consecutive spacing plus nonnegative vehicle lengths gives pairwise
spacing down the whole lane. -/
theorem pairwise_of_chain_gapOk (minGap : ℚ) (hg : 0 ≤ minGap) :
    ∀ l : List TrafficVeh, List.Chain' (gapOk minGap) l →
      (∀ v ∈ l, 0 ≤ v.lengthMeters) → List.Pairwise (gapOk minGap) l := by
  intro l
  induction l with
  | nil => intro _ _; exact List.Pairwise.nil
  | cons a t ih =>
    intro hch hlen
    have hcha : List.Chain (gapOk minGap) a t := hch
    refine List.Pairwise.cons
      (chain_rel_all minGap hg t a hcha
        (fun v hv => hlen v (List.mem_cons_of_mem _ hv)))
      (ih ?_ (fun v hv => hlen v (List.mem_cons_of_mem _ hv)))
    cases t with
    | nil => trivial
    | cons c t2 => exact (List.chain_cons.mp hcha).2

theorem updateVehicle_len (profiles : List LaneProfile) (dt jitter : ℚ)
    (v : TrafficVeh) :
    (updateVehicle profiles dt jitter v).lengthMeters = v.lengthMeters := by
  unfold updateVehicle
  cases profAt profiles v.laneIndex <;> rfl

theorem updatePhaseFrom_len (profiles : List LaneProfile) (dt : ℚ)
    (jitter : ℕ → ℚ) :
    ∀ (l : List TrafficVeh) (i : ℕ),
      (∀ v ∈ l, 0 ≤ v.lengthMeters) →
      ∀ v ∈ updatePhaseFrom profiles dt jitter i l, 0 ≤ v.lengthMeters := by
  intro l
  induction l with
  | nil => intro i _ v hv; cases hv
  | cons a t ih =>
    intro i hlen v hv
    rcases List.mem_cons.mp hv with rfl | hv2
    · rw [updateVehicle_len]
      exact hlen a (List.mem_cons_self _ _)
    · exact ih (i + 1) (fun w hw => hlen w (List.mem_cons_of_mem _ hw)) v hv2

theorem applyLaneChange_len (profiles : List LaneProfile)
    (vs : List TrafficVeh) (i : ℕ) (n r : ℚ)
    (hlen : ∀ v ∈ vs, 0 ≤ v.lengthMeters) :
    ∀ v ∈ applyLaneChange profiles vs i n r, 0 ≤ v.lengthMeters := by
  intro v hv
  unfold applyLaneChange at hv
  cases hget : vs.get? i with
  | none => rw [hget] at hv; exact hlen v hv
  | some w =>
    rw [hget] at hv
    dsimp only at hv
    have hwmem : w ∈ vs := List.get?_mem hget
    cases hdec : laneChangeDecision profiles vs w with
    | none => rw [hdec] at hv; exact hlen v hv
    | some c =>
      rw [hdec] at hv
      dsimp only at hv
      cases hp : profAt profiles c with
      | none =>
        rw [hp] at hv
        rcases List.mem_or_eq_of_mem_set hv with hv2 | rfl
        · exact hlen v hv2
        · exact hlen w hwmem
      | some tp =>
        rw [hp] at hv
        rcases List.mem_or_eq_of_mem_set hv with hv2 | rfl
        · exact hlen v hv2
        · exact hlen w hwmem

theorem laneChangePhase_len (profiles : List LaneProfile)
    (nudges resamples : ℕ → ℚ) (vs : List TrafficVeh)
    (hlen : ∀ v ∈ vs, 0 ≤ v.lengthMeters) :
    ∀ v ∈ laneChangePhase profiles nudges resamples vs, 0 ≤ v.lengthMeters := by
  unfold laneChangePhase
  have key : ∀ (idxs : List ℕ) (acc : List TrafficVeh),
      (∀ v ∈ acc, 0 ≤ v.lengthMeters) →
      ∀ v ∈ idxs.foldl
        (fun acc i => applyLaneChange profiles acc i (nudges i) (resamples i))
        acc, 0 ≤ v.lengthMeters := by
    intro idxs
    induction idxs with
    | nil => intro acc h v hv; exact h v hv
    | cons i rest ih =>
      intro acc h v hv
      exact ih _ (applyLaneChange_len profiles acc i (nudges i) (resamples i) h) v hv
  exact key _ vs hlen

theorem mem_sortTrafficDesc {l : List TrafficVeh} {v : TrafficVeh}
    (hv : v ∈ sortTrafficDesc l) : v ∈ l :=
  (List.perm_insertionSort _ l).mem_iff.mp hv

theorem laneGroup_lane (profiles : List LaneProfile) (vs : List TrafficVeh)
    (lane : ℕ) : ∀ v ∈ laneGroup profiles vs lane, v.laneIndex = (lane : ℤ) := by
  intro v hv
  unfold laneGroup at hv
  cases hg : profiles.get? lane with
  | none => rw [hg] at hv; cases hv
  | some lp =>
    rw [hg] at hv
    obtain ⟨w, hw, hlane, _⟩ := enforceSpacing_mem _ _ v hv
    have hw2 := mem_sortTrafficDesc hw
    have := (List.mem_filter.mp hw2).2
    rw [hlane]
    exact beq_iff_eq.mp this

theorem laneGroup_len (profiles : List LaneProfile) (vs : List TrafficVeh)
    (lane : ℕ) (hlen : ∀ v ∈ vs, 0 ≤ v.lengthMeters) :
    ∀ v ∈ laneGroup profiles vs lane, 0 ≤ v.lengthMeters := by
  intro v hv
  unfold laneGroup at hv
  cases hg : profiles.get? lane with
  | none => rw [hg] at hv; cases hv
  | some lp =>
    rw [hg] at hv
    obtain ⟨w, hw, _, hlenEq⟩ := enforceSpacing_mem _ _ v hv
    rw [hlenEq]
    exact hlen w (List.mem_filter.mp (mem_sortTrafficDesc hw)).1

theorem laneGroup_pairwise (profiles : List LaneProfile) (vs : List TrafficVeh)
    (lane : ℕ) (lp : LaneProfile) (hg : profiles.get? lane = some lp)
    (hsp : 0 ≤ lp.preferredSpacingMeters)
    (hlen : ∀ v ∈ vs, 0 ≤ v.lengthMeters) :
    List.Pairwise (gapOk lp.preferredSpacingMeters)
      (laneGroup profiles vs lane) := by
  have hshape : laneGroup profiles vs lane
      = enforceSpacing lp.preferredSpacingMeters
          (sortTrafficDesc (vs.filter fun v => v.laneIndex == (lane : ℤ))) := by
    unfold laneGroup
    rw [hg]
  rw [hshape]
  refine pairwise_of_chain_gapOk _ hsp _ (enforceSpacing_chain _ _) ?_
  intro v hv
  obtain ⟨w, hw, _, hlenEq⟩ := enforceSpacing_mem _ _ v hv
  rw [hlenEq]
  exact hlen w (List.mem_filter.mp (mem_sortTrafficDesc hw)).1

theorem mem_spacingPhase_valid (profiles : List LaneProfile)
    (vs : List TrafficVeh) (u : TrafficVeh)
    (hu : u ∈ spacingPhase profiles vs) (h0 : 0 ≤ u.laneIndex)
    (h1 : u.laneIndex < (profiles.length : ℤ)) :
    ∃ lane : ℕ, lane < profiles.length ∧ u ∈ laneGroup profiles vs lane := by
  unfold spacingPhase at hu
  rcases List.mem_append.mp hu with hflat | hleft
  · obtain ⟨grp, hgrp, humem⟩ := List.mem_flatten.mp hflat
    obtain ⟨lane, hlane, rfl⟩ := List.mem_map.mp hgrp
    exact ⟨lane, List.mem_range.mp hlane, humem⟩
  · exfalso
    have := (List.mem_filter.mp hleft).2
    simp only [Bool.not_eq_true', Bool.and_eq_false_iff,
      decide_eq_false_iff_not, not_le, not_lt] at this
    rcases this with h | h
    · exact absurd h0 (not_le.mpr h)
    · exact absurd h1 (not_lt.mpr h)

theorem profAt_eq_some {ps : List LaneProfile} {i : ℤ} {p : LaneProfile}
    (h : profAt ps i = some p) :
    0 ≤ i ∧ i.toNat < ps.length ∧ ps.get? i.toNat = some p := by
  unfold profAt at h
  by_cases hi : 0 ≤ i
  · rw [if_pos hi] at h
    exact ⟨hi, (List.get?_eq_some.mp h).1, h⟩
  · rw [if_neg hi] at h
    cases h

/-- Every preferred spacing of the live lane profiles is positive. -/
theorem liveSpacing_pos : ∀ q ∈ liveLaneProfiles, 0 < q.preferredSpacingMeters := by
  rw [liveLaneProfiles_eq]
  decide

/-- C2 (amended): after the non-spawn part of a tick — kinematic advance,
lane changes, spacing enforcement and despawn — every pair of distinct
same-lane vehicles satisfies the spacing invariant: the gap from the leader
to the follower (centre-to-centre minus half-lengths) is at least the
lane's preferred spacing.  Vehicles created by the same tick's spawn phase
are exempt: the spawn guard checks only the centre-to-centre distance to
the single vehicle closest to the corridor origin, so a fresh spawn can end
the tick closer than the preferred spacing (see the C2 counterexample). -/
theorem c2_amended_spacing_invariant (dtRaw : ℚ) (r : TickDraws)
    (vs : List TrafficVeh) (hdt : 0 < dtRaw)
    (hlen : ∀ v ∈ vs, 0 ≤ v.lengthMeters) :
    ∀ u ∈ coreTick liveLaneProfiles dtRaw r vs,
      ∀ w ∈ coreTick liveLaneProfiles dtRaw r vs,
        u ≠ w → u.laneIndex = w.laneIndex →
        ∀ p, profAt liveLaneProfiles u.laneIndex = some p →
        w.positionZ ≤ u.positionZ →
        p.preferredSpacingMeters ≤ gapOf u w := by
  intro u hu w hw hne hlaneEq p hp hzw
  have hdt2 : ¬ (min (1/2 : ℚ) dtRaw ≤ 0) :=
    not_le.mpr (lt_min (by norm_num) hdt)
  rw [coreTick, if_neg hdt2] at hu hw
  unfold tickPhases despawnPhase at hu hw
  have hlen1 : ∀ v ∈ updatePhase liveLaneProfiles (min (1/2) dtRaw) r.jitter vs,
      0 ≤ v.lengthMeters :=
    fun v hv => updatePhaseFrom_len _ _ _ vs 0 hlen v hv
  have hlen2 := laneChangePhase_len liveLaneProfiles r.nudge r.resample _ hlen1
  have huS := (List.mem_filter.mp hu).1
  have hwS := (List.mem_filter.mp hw).1
  obtain ⟨hu0, huLt, huGet⟩ := profAt_eq_some hp
  have hw0 : 0 ≤ w.laneIndex := hlaneEq ▸ hu0
  have huLt2 : u.laneIndex < (liveLaneProfiles.length : ℤ) := by omega
  have hwLt2 : w.laneIndex < (liveLaneProfiles.length : ℤ) := hlaneEq ▸ huLt2
  obtain ⟨lu, hluLt, huG⟩ :=
    mem_spacingPhase_valid liveLaneProfiles _ u huS hu0 huLt2
  obtain ⟨lw, hlwLt, hwG⟩ :=
    mem_spacingPhase_valid liveLaneProfiles _ w hwS hw0 hwLt2
  have huLane := laneGroup_lane liveLaneProfiles _ lu u huG
  have hwLane := laneGroup_lane liveLaneProfiles _ lw w hwG
  have hll : lu = lw := by
    have : (lu : ℤ) = (lw : ℤ) := by rw [← huLane, ← hwLane, hlaneEq]
    exact_mod_cast this
  subst hll
  have hluNat : u.laneIndex.toNat = lu := by
    rw [huLane]
    exact Int.toNat_natCast lu
  have hGet2 : liveLaneProfiles.get? lu = some p := by
    rw [← hluNat]
    exact huGet
  have hspPos : 0 < p.preferredSpacingMeters :=
    liveSpacing_pos p (List.get?_mem hGet2)
  have hpair :=
    laneGroup_pairwise liveLaneProfiles _ lu p hGet2 (le_of_lt hspPos) hlen2
  have hsym :=
    (hpair.imp (fun h => Or.inl h :
      ∀ {a b : TrafficVeh}, gapOk p.preferredSpacingMeters a b →
        gapOk p.preferredSpacingMeters a b ∨ gapOk p.preferredSpacingMeters b a)).forall
      (fun a b h => h.symm)
  rcases hsym huG hwG hne with hgood | hbad
  · exact hgood
  · exfalso
    have hulen := laneGroup_len liveLaneProfiles _ lu hlen2 u huG
    have hwlen := laneGroup_len liveLaneProfiles _ lu hlen2 w hwG
    unfold gapOk gapOf at hbad
    linarith

/-- A single express-lane vehicle at -850.8 m doing a steady 30 m/s. -/
def c2veh : TrafficVeh := ⟨"v0", 0, -4254/5, 30, 30, "sedan", .steady, 9/2, 9/5⟩

/-- The same vehicle after the tick: advanced 4.8 m to -846 m. -/
def c2vehAfter : TrafficVeh := ⟨"v0", 0, -846, 30, 30, "sedan", .steady, 9/2, 9/5⟩

/-- The vehicle the same tick spawns at -800 m (66 mph = 29.50464 m/s). -/
def c2spawned : TrafficVeh :=
  ⟨"n0", 0, -800, 92202/3125, 92202/3125, "sedan", .steady, 9/2, 9/5⟩

/-- Random draws for the C2 counterexample tick: no speed jitter, a spawn
event in lane 0 only (roll 0 is below the 0.0288 spawn probability, roll 1
is above every lane's probability), sedan dimensions and the minimum band
speed for the spawned vehicle. -/
def c2draws : TickDraws :=
  { jitter := fun _ => 1/2
    nudge := fun _ => 1/2
    resample := fun _ => 1/2
    spawn := fun lane =>
      if lane == 0 then ⟨0, 0, 0, "n0", 0, 0⟩ else ⟨1, 0, 0, "nx", 0, 0⟩ }

theorem listRange5 : List.range 5 = [0, 1, 2, 3, 4] := rfl

theorem listRange1 : List.range 1 = [0] := rfl

/-- C2 counterexample: a full tick (dt = 0.16 s) of the live engine on a
single lane-0 vehicle ends with two same-lane vehicles whose longitudinal
gap is 41.5 m, below the lane's 45 m preferred spacing: the spawn guard
compares only the centre-to-centre distance (46 m, just above 45) of the
closest vehicle behind the origin and ignores the half-lengths, so the
spawned vehicle lands closer than the preferred spacing. -/
theorem c2_counterexample :
    tick liveLaneProfiles (4/25) c2draws [c2veh] = [c2vehAfter, c2spawned] ∧
    c2spawned.laneIndex = c2vehAfter.laneIndex ∧
    c2vehAfter.positionZ ≤ c2spawned.positionZ ∧
    profAt liveLaneProfiles c2spawned.laneIndex
      = some ⟨0, "express", 70, 66, 74, 45, 54/5⟩ ∧
    gapOf c2spawned c2vehAfter = 83/2 ∧ (83/2 : ℚ) < 45 := by
  have h1 : updatePhase liveLaneProfiles (4/25) c2draws.jitter [c2veh]
      = [c2vehAfter] := by
    norm_num [updatePhase, updatePhaseFrom, updateVehicle, randBetween,
      behaviorBias, profAt, liveLaneProfiles_eq, mphToMps, mphFactor,
      min_def, max_def, c2draws, c2veh, c2vehAfter]
  have hdec : laneChangeDecision liveLaneProfiles [c2vehAfter] c2vehAfter
      = none := by
    norm_num [laneChangeDecision, laneChangeCandidateStep, laneView,
      sortTrafficAsc, List.insertionSort, List.orderedInsert, findNeighbors,
      gapAheadOf, gapBehindOf, gapGt, gapLt, gapOf, scoreOf, scoreGt, profAt,
      liveLaneProfiles_eq, mphToMps, mphFactor, min_def, max_def, c2vehAfter]
  have h2a : applyLaneChange liveLaneProfiles [c2vehAfter] 0 (1/2) (1/2)
      = [c2vehAfter] := by
    simp [applyLaneChange, hdec]
  have h2 : laneChangePhase liveLaneProfiles c2draws.nudge c2draws.resample
      [c2vehAfter] = [c2vehAfter] := by
    simp only [laneChangePhase, List.length_cons, List.length_nil,
      listRange1, List.foldl_cons, List.foldl_nil, c2draws]
    exact h2a
  have h3 : spacingPhase liveLaneProfiles [c2vehAfter] = [c2vehAfter] := by
    norm_num [spacingPhase, laneGroup, enforceSpacing, enforceFrom,
      sortTrafficDesc, List.insertionSort, List.orderedInsert,
      liveLaneProfiles_eq, listRange5, c2vehAfter]
  have h4 : despawnPhase [c2vehAfter] = [c2vehAfter] := by
    norm_num [despawnPhase, c2vehAfter]
  have hs0 : spawnLane liveLaneProfiles (4/25) 0 ⟨0, 0, 0, "n0", 0, 0⟩
      [c2vehAfter] = [c2vehAfter, c2spawned] := by
    norm_num [spawnLane, spawnVehicleState, sortTrafficDesc,
      List.insertionSort, List.orderedInsert, vehicleDims, behaviorTable,
      randBetween, behaviorBias, profAt, liveLaneProfiles_eq, mphToMps,
      mphFactor, c2vehAfter, c2spawned]
  have hsSkip : ∀ lane : ℕ, 1 ≤ lane → lane ≤ 4 →
      spawnLane liveLaneProfiles (4/25) lane ⟨1, 0, 0, "nx", 0, 0⟩
        [c2vehAfter, c2spawned] = [c2vehAfter, c2spawned] := by
    intro lane h1 h4
    interval_cases lane <;>
      norm_num [spawnLane, liveLaneProfiles_eq]
  have h5 : spawnPhase liveLaneProfiles (4/25) c2draws.spawn [c2vehAfter]
      = [c2vehAfter, c2spawned] := by
    have hlen5 : liveLaneProfiles.length = 5 := by
      rw [liveLaneProfiles_eq]
      rfl
    simp only [spawnPhase, hlen5, listRange5, List.foldl_cons, List.foldl_nil,
      c2draws]
    norm_num [hs0, hsSkip 1 (by norm_num) (by norm_num),
      hsSkip 2 (by norm_num) (by norm_num), hsSkip 3 (by norm_num) (by norm_num),
      hsSkip 4 (by norm_num) (by norm_num)]
  have hdtmin : min (1/2 : ℚ) (4/25) = 4/25 := by norm_num [min_def]
  refine ⟨?_, rfl, by norm_num [c2vehAfter, c2spawned], ?_, ?_, by norm_num⟩
  · rw [tick]
    rw [hdtmin]
    rw [if_neg (by norm_num)]
    rw [tickPhases, h1, h2, h3, h4, h5]
  · norm_num [profAt, liveLaneProfiles_eq, c2spawned]
  · norm_num [gapOf, c2spawned, c2vehAfter]

/-- Witness scenario for the amended C2 theorem: two express-lane sedans
29.5 m apart (below the 45 m preferred spacing but above the comfortable
gap, so no lane change triggers). -/
def c2wA : TrafficVeh := ⟨"a", 0, 100, 30, 30, "sedan", .steady, 9/2, 9/5⟩

def c2wB : TrafficVeh := ⟨"b", 0, 66, 30, 30, "sedan", .steady, 9/2, 9/5⟩

/-- The leader after the tick (advanced 4.8 m). -/
def c2wA2 : TrafficVeh := ⟨"a", 0, 524/5, 30, 30, "sedan", .steady, 9/2, 9/5⟩

/-- The follower mid-tick, before spacing enforcement. -/
def c2wBmid : TrafficVeh := ⟨"b", 0, 354/5, 30, 30, "sedan", .steady, 9/2, 9/5⟩

/-- The follower after spacing enforcement: relocated to exactly the 45 m
minimum gap behind the leader and slowed to 90 percent of its speed. -/
def c2wB2 : TrafficVeh := ⟨"b", 0, 553/10, 27, 30, "sedan", .steady, 9/2, 9/5⟩

def c2wdraws : TickDraws :=
  { jitter := fun _ => 1/2
    nudge := fun _ => 1/2
    resample := fun _ => 1/2
    spawn := fun _ => ⟨1, 0, 0, "nx", 0, 0⟩ }

theorem c2_amended_spacing_invariant_witness :
    coreTick liveLaneProfiles (4/25) c2wdraws [c2wA, c2wB] = [c2wA2, c2wB2] ∧
    (45 : ℚ) ≤ gapOf c2wA2 c2wB2 := by
  have hneBA : ¬("b" = "a") := by decide
  have hneAB : ¬("a" = "b") := by decide
  have h1 : updatePhase liveLaneProfiles (4/25) c2wdraws.jitter [c2wA, c2wB]
      = [c2wA2, c2wBmid] := by
    norm_num [updatePhase, updatePhaseFrom, updateVehicle, randBetween,
      behaviorBias, profAt, liveLaneProfiles_eq, mphToMps, mphFactor,
      min_def, max_def, c2wdraws, c2wA, c2wB, c2wA2, c2wBmid]
  have hdecA : laneChangeDecision liveLaneProfiles [c2wA2, c2wBmid] c2wA2
      = none := by
    norm_num [hneBA, hneAB, laneChangeDecision, laneChangeCandidateStep,
      laneView, sortTrafficAsc, List.insertionSort, List.orderedInsert,
      findNeighbors, gapAheadOf, gapBehindOf, gapGt, gapLt, gapOf, scoreOf,
      scoreGt, profAt, liveLaneProfiles_eq, mphToMps, mphFactor, min_def,
      max_def, c2wA2, c2wBmid]
  have hdecB : laneChangeDecision liveLaneProfiles [c2wA2, c2wBmid] c2wBmid
      = none := by
    norm_num [hneBA, hneAB, laneChangeDecision, laneChangeCandidateStep,
      laneView, sortTrafficAsc, List.insertionSort, List.orderedInsert,
      findNeighbors, gapAheadOf, gapBehindOf, gapGt, gapLt, gapOf, scoreOf,
      scoreGt, profAt, liveLaneProfiles_eq, mphToMps, mphFactor, min_def,
      max_def, c2wA2, c2wBmid]
  have h2a : applyLaneChange liveLaneProfiles [c2wA2, c2wBmid] 0 (1/2) (1/2)
      = [c2wA2, c2wBmid] := by
    simp [applyLaneChange, hdecA]
  have h2b : applyLaneChange liveLaneProfiles [c2wA2, c2wBmid] 1 (1/2) (1/2)
      = [c2wA2, c2wBmid] := by
    simp [applyLaneChange, hdecB]
  have h2 : laneChangePhase liveLaneProfiles c2wdraws.nudge c2wdraws.resample
      [c2wA2, c2wBmid] = [c2wA2, c2wBmid] := by
    have hrange2 : List.range 2 = [0, 1] := rfl
    simp only [laneChangePhase, List.length_cons, List.length_nil,
      Nat.zero_add, Nat.reduceAdd, hrange2, List.foldl_cons, List.foldl_nil,
      c2wdraws]
    rw [h2a, h2b]
  have h3 : spacingPhase liveLaneProfiles [c2wA2, c2wBmid] = [c2wA2, c2wB2] := by
    norm_num [spacingPhase, laneGroup, enforceSpacing, enforceFrom, gapOf,
      sortTrafficDesc, List.insertionSort, List.orderedInsert,
      liveLaneProfiles_eq, listRange5, min_def, c2wA2, c2wBmid, c2wB2]
  have h4 : despawnPhase [c2wA2, c2wB2] = [c2wA2, c2wB2] := by
    norm_num [despawnPhase, c2wA2, c2wB2]
  have hcore : coreTick liveLaneProfiles (4/25) c2wdraws [c2wA, c2wB]
      = [c2wA2, c2wB2] := by
    rw [coreTick]
    rw [show min (1/2 : ℚ) (4/25) = 4/25 by norm_num [min_def]]
    rw [if_neg (by norm_num)]
    rw [tickPhases, h1, h2, h3, h4]
  refine ⟨hcore, ?_⟩
  have hlen : ∀ v ∈ [c2wA, c2wB], 0 ≤ v.lengthMeters := by
    intro v hv
    rcases List.mem_cons.mp hv with rfl | hv2
    · norm_num [c2wA]
    · rcases List.mem_cons.mp hv2 with rfl | hv3
      · norm_num [c2wB]
      · cases hv3
  have happ := c2_amended_spacing_invariant (4/25) c2wdraws [c2wA, c2wB]
    (by norm_num) hlen
  have hu : c2wA2 ∈ coreTick liveLaneProfiles (4/25) c2wdraws [c2wA, c2wB] := by
    rw [hcore]; exact List.mem_cons_self _ _
  have hw : c2wB2 ∈ coreTick liveLaneProfiles (4/25) c2wdraws [c2wA, c2wB] := by
    rw [hcore]; exact List.mem_cons_of_mem _ (List.mem_cons_self _ _)
  have hne : c2wA2 ≠ c2wB2 := by
    intro h
    exact hneAB (congrArg TrafficVeh.id h)
  have hp : profAt liveLaneProfiles c2wA2.laneIndex
      = some ⟨0, "express", 70, 66, 74, 45, 54/5⟩ := by
    norm_num [profAt, liveLaneProfiles_eq, c2wA2]
  have hz : c2wB2.positionZ ≤ c2wA2.positionZ := by norm_num [c2wA2, c2wB2]
  exact happ c2wA2 hu c2wB2 hw hne rfl _ hp hz

/-- The vehicle ids visible in a `getSnapshot` read (the snapshot maps each
vehicle state to a `VehicleSnapshot` carrying its id). -/
def snapshotIds (vs : List TrafficVeh) : List String := vs.map fun v => v.id

/-- The `spawn vehicle` operation at the service level: on success the new
vehicle is pushed onto the population and its id returned; an invalid lane
throws before anything is pushed. -/
def spawnVehicleOp (vs : List TrafficVeh) (lane : ℤ) (speedMph posZ : Option ℚ)
    (kind : Option String) (behavior : Option Behavior) (d : SpawnDraw) :
    Except String (String × List TrafficVeh) :=
  match spawnVehicleState liveLaneProfiles lane speedMph posZ kind behavior d with
  | .ok nv => .ok (nv.id, vs ++ [nv])
  | .error e => .error e

/-- The vehicle population after a `spawn vehicle` call (on a thrown error
the population is the one from before the call). -/
def spawnApplied (vs : List TrafficVeh) (lane : ℤ) (speedMph posZ : Option ℚ)
    (kind : Option String) (behavior : Option Behavior) (d : SpawnDraw) :
    List TrafficVeh :=
  match spawnVehicleOp vs lane speedMph posZ kind behavior d with
  | .ok p => p.2
  | .error _ => vs

theorem liveLaneProfiles_length : liveLaneProfiles.length = 5 := by
  rw [liveLaneProfiles_eq]
  rfl

theorem ids_updatePhaseFrom (profiles : List LaneProfile) (dt : ℚ)
    (jitter : ℕ → ℚ) :
    ∀ (l : List TrafficVeh) (i : ℕ),
      snapshotIds (updatePhaseFrom profiles dt jitter i l) = snapshotIds l := by
  intro l
  induction l with
  | nil => intro i; rfl
  | cons a t ih =>
    intro i
    unfold updatePhaseFrom snapshotIds
    simp only [List.map_cons]
    have hid : (updateVehicle profiles dt (jitter i) a).id = a.id := by
      unfold updateVehicle
      cases profAt profiles a.laneIndex <;> rfl
    rw [hid]
    have := ih (i + 1)
    unfold snapshotIds at this
    rw [this]

theorem ids_set (l : List TrafficVeh) (i : ℕ) (v w : TrafficVeh)
    (hget : l.get? i = some v) (hid : w.id = v.id) :
    snapshotIds (l.set i w) = snapshotIds l := by
  induction l generalizing i with
  | nil => cases hget
  | cons a t ih =>
    cases i with
    | zero =>
      cases hget
      unfold snapshotIds
      simp [hid]
    | succ j =>
      unfold snapshotIds
      simp only [List.set_cons_succ, List.map_cons]
      have := ih j hget
      unfold snapshotIds at this
      rw [this]

theorem ids_applyLaneChange (profiles : List LaneProfile)
    (vs : List TrafficVeh) (i : ℕ) (n r : ℚ) :
    snapshotIds (applyLaneChange profiles vs i n r) = snapshotIds vs := by
  unfold applyLaneChange
  cases hget : vs.get? i with
  | none => rfl
  | some v =>
    dsimp only
    cases laneChangeDecision profiles vs v with
    | none => rfl
    | some c =>
      dsimp only
      cases profAt profiles c with
      | none => exact ids_set vs i v _ hget rfl
      | some tp => exact ids_set vs i v _ hget rfl

theorem ids_laneChangePhase (profiles : List LaneProfile)
    (nudges resamples : ℕ → ℚ) (vs : List TrafficVeh) :
    snapshotIds (laneChangePhase profiles nudges resamples vs)
      = snapshotIds vs := by
  unfold laneChangePhase
  have key : ∀ (idxs : List ℕ) (acc : List TrafficVeh),
      snapshotIds (idxs.foldl
        (fun acc i => applyLaneChange profiles acc i (nudges i) (resamples i))
        acc) = snapshotIds acc := by
    intro idxs
    induction idxs with
    | nil => intro acc; rfl
    | cons i rest ih =>
      intro acc
      rw [List.foldl_cons, ih, ids_applyLaneChange]
  exact key _ vs

theorem ids_enforceFrom (minGap : ℚ) :
    ∀ (rest : List TrafficVeh) (lead : TrafficVeh),
      snapshotIds (enforceFrom minGap lead rest) = snapshotIds rest := by
  intro rest
  induction rest with
  | nil => intro lead; rfl
  | cons foll rest ih =>
    intro lead
    unfold enforceFrom snapshotIds
    dsimp only
    by_cases h : gapOf lead foll < minGap
    · rw [if_pos h]
      simp only [List.map_cons]
      have := ih { foll with
        positionZ := lead.positionZ -
          (minGap + lead.lengthMeters * (1/2) + foll.lengthMeters * (1/2))
        speedMps := min foll.speedMps (lead.speedMps * (9/10)) }
      unfold snapshotIds at this
      rw [this]
    · rw [if_neg h]
      simp only [List.map_cons]
      have := ih foll
      unfold snapshotIds at this
      rw [this]

theorem ids_enforceSpacing (minGap : ℚ) (l : List TrafficVeh) :
    snapshotIds (enforceSpacing minGap l) = snapshotIds l := by
  cases l with
  | nil => rfl
  | cons lead rest =>
    unfold enforceSpacing snapshotIds
    simp only [List.map_cons]
    have := ids_enforceFrom minGap rest lead
    unfold snapshotIds at this
    rw [this]

theorem mem_ids_iff (vid : String) (l : List TrafficVeh) :
    vid ∈ snapshotIds l ↔ ∃ v ∈ l, v.id = vid := by
  unfold snapshotIds
  simp [List.mem_map, eq_comm]

theorem mem_ids_spacingPhase (profiles : List LaneProfile)
    (vs : List TrafficVeh) (vid : String) (h : vid ∈ snapshotIds vs) :
    vid ∈ snapshotIds (spacingPhase profiles vs) := by
  obtain ⟨v, hv, hvid⟩ := (mem_ids_iff vid vs).mp h
  rw [mem_ids_iff]
  unfold spacingPhase
  by_cases hvalid : 0 ≤ v.laneIndex ∧ v.laneIndex < (profiles.length : ℤ)
  · have hlane : v.laneIndex.toNat < profiles.length := by omega
    have hmemflt : v ∈ vs.filter fun w => w.laneIndex == (v.laneIndex.toNat : ℤ) := by
      refine List.mem_filter.mpr ⟨hv, ?_⟩
      have : (v.laneIndex.toNat : ℤ) = v.laneIndex := Int.toNat_of_nonneg hvalid.1
      rw [this]
      exact beq_self_eq_true _
    have hmemsort := (List.perm_insertionSort
      (fun a b => b.positionZ ≤ a.positionZ) _).mem_iff.mpr hmemflt
    have hidin : vid ∈ snapshotIds (laneGroup profiles vs v.laneIndex.toNat) := by
      unfold laneGroup
      cases hg : profiles.get? v.laneIndex.toNat with
      | none =>
        exact absurd hg (by simp [List.get?_eq_some]; omega)
      | some lp =>
        rw [ids_enforceSpacing]
        exact (mem_ids_iff _ _).mpr ⟨v, hmemsort, hvid⟩
    obtain ⟨w, hw, hwid⟩ := (mem_ids_iff _ _).mp hidin
    refine ⟨w, List.mem_append_left _ ?_, hwid⟩
    exact List.mem_flatten.mpr ⟨_, List.mem_map.mpr
      ⟨v.laneIndex.toNat, List.mem_range.mpr hlane, rfl⟩, hw⟩
  · refine ⟨v, List.mem_append_right _ ?_, hvid⟩
    refine List.mem_filter.mpr ⟨hv, ?_⟩
    simp only [Bool.not_eq_true', Bool.and_eq_false_iff,
      decide_eq_false_iff_not, not_le, not_lt]
    omega

theorem mem_ids_spawnLane (profiles : List LaneProfile) (dt : ℚ) (lane : ℕ)
    (d : SpawnDraw) (vs : List TrafficVeh) (vid : String)
    (h : vid ∈ snapshotIds vs) :
    vid ∈ snapshotIds (spawnLane profiles dt lane d vs) := by
  unfold spawnLane
  cases profiles.get? lane with
  | none => exact h
  | some lp =>
    dsimp only
    split_ifs
    · exact h
    · exact h
    · cases spawnVehicleState profiles (lane : ℤ)
        (some (randBetween d.speedFrac lp.minSpeedMph lp.maxSpeedMph))
        (some (-800)) none none d with
      | ok nv =>
        unfold snapshotIds
        rw [List.map_append]
        exact List.mem_append_left _ h
      | error e => exact h

theorem mem_ids_spawnPhase (profiles : List LaneProfile) (dt : ℚ)
    (draws : ℕ → SpawnDraw) (vs : List TrafficVeh) (vid : String)
    (h : vid ∈ snapshotIds vs) :
    vid ∈ snapshotIds (spawnPhase profiles dt draws vs) := by
  unfold spawnPhase
  have key : ∀ (lanes : List ℕ) (acc : List TrafficVeh),
      vid ∈ snapshotIds acc →
      vid ∈ snapshotIds (lanes.foldl
        (fun acc lane => spawnLane profiles dt lane (draws lane) acc) acc) := by
    intro lanes
    induction lanes with
    | nil => intro acc h2; exact h2
    | cons lane rest ih =>
      intro acc h2
      rw [List.foldl_cons]
      exact ih _ (mem_ids_spawnLane profiles dt lane (draws lane) acc vid h2)
  exact key _ vs h

/-- C9: spawning on a valid lane succeeds, returns the fresh id and that id
appears in the next snapshot; spawning on a lane outside [0, laneCount)
throws and leaves the population unchanged; and the only way an id present
in a snapshot can be missing after a tick is the corridor-bounds despawn
(some pre-despawn carrier of the id left [-1200 m, 2200 m]) — no other
phase of the tick, and no spawn, removes an id. -/
theorem c9_spawn_snapshot_persistence (vs : List TrafficVeh) (lane : ℤ)
    (speedMph posZ : Option ℚ) (kind : Option String)
    (behavior : Option Behavior) (d : SpawnDraw) (dtRaw : ℚ) (r : TickDraws)
    (vid : String) :
    (0 ≤ lane → lane < 5 →
      ∃ nv, spawnVehicleOp vs lane speedMph posZ kind behavior d
          = .ok (d.uuid, vs ++ [nv]) ∧
        d.uuid ∈ snapshotIds (vs ++ [nv])) ∧
    (¬ (0 ≤ lane ∧ lane < 5) →
      spawnVehicleOp vs lane speedMph posZ kind behavior d
          = .error "Invalid lane index" ∧
        spawnApplied vs lane speedMph posZ kind behavior d = vs) ∧
    (vid ∈ snapshotIds vs →
      vid ∉ snapshotIds (tick liveLaneProfiles dtRaw r vs) →
      ∃ v, v ∈ spacingPhase liveLaneProfiles
          (laneChangePhase liveLaneProfiles r.nudge r.resample
            (updatePhase liveLaneProfiles (min (1/2) dtRaw) r.jitter vs)) ∧
        v.id = vid ∧ (2200 < v.positionZ ∨ v.positionZ < -1200)) := by
  refine ⟨?_, ?_, ?_⟩
  · intro h0 h5
    have hlt : lane.toNat < liveLaneProfiles.length := by
      rw [liveLaneProfiles_length]; omega
    have hlp : liveLaneProfiles.get? lane.toNat
        = some (liveLaneProfiles.get ⟨lane.toNat, hlt⟩) :=
      List.get?_eq_get hlt
    have hpA : profAt liveLaneProfiles lane
        = some (liveLaneProfiles.get ⟨lane.toNat, hlt⟩) := by
      unfold profAt
      rw [if_pos h0, hlp]
    have hex : ∃ nv, spawnVehicleState liveLaneProfiles lane speedMph posZ
        kind behavior d = .ok nv ∧ nv.id = d.uuid := by
      unfold spawnVehicleState
      rw [hpA]
      exact ⟨_, rfl, rfl⟩
    obtain ⟨nv, hnv, hnvid⟩ := hex
    refine ⟨nv, ?_, ?_⟩
    · unfold spawnVehicleOp
      rw [hnv]
      dsimp only
      rw [hnvid]
    · unfold snapshotIds
      rw [List.map_append]
      refine List.mem_append_right _ ?_
      simp [hnvid]
  · intro hbad
    have hpA : profAt liveLaneProfiles lane = none := by
      unfold profAt
      by_cases h0 : 0 ≤ lane
      · rw [if_pos h0]
        refine List.get?_eq_none.mpr ?_
        rw [liveLaneProfiles_length]
        omega
      · rw [if_neg h0]
    constructor
    · unfold spawnVehicleOp spawnVehicleState
      rw [hpA]
    · unfold spawnApplied spawnVehicleOp spawnVehicleState
      rw [hpA]
  · intro hin hout
    by_cases hdt : min (1/2 : ℚ) dtRaw ≤ 0
    · exfalso
      rw [tick, if_pos hdt] at hout
      exact hout hin
    · rw [tick, if_neg hdt] at hout
      unfold tickPhases at hout
      have hin2 : vid ∈ snapshotIds (spacingPhase liveLaneProfiles
          (laneChangePhase liveLaneProfiles r.nudge r.resample
            (updatePhase liveLaneProfiles (min (1/2) dtRaw) r.jitter vs))) := by
        refine mem_ids_spacingPhase _ _ _ ?_
        rw [ids_laneChangePhase]
        unfold updatePhase
        rw [ids_updatePhaseFrom]
        exact hin
      obtain ⟨v, hv, hvid⟩ := (mem_ids_iff _ _).mp hin2
      refine ⟨v, hv, hvid, ?_⟩
      by_cases hbounds : v.positionZ ≤ 2200 ∧ -1200 ≤ v.positionZ
      · exfalso
        apply hout
        apply mem_ids_spawnPhase
        refine (mem_ids_iff _ _).mpr ⟨v, ?_, hvid⟩
        unfold despawnPhase
        refine List.mem_filter.mpr ⟨hv, ?_⟩
        simp only [Bool.and_eq_true, decide_eq_true_eq]
        exact hbounds
      · rcases not_and_or.mp hbounds with h | h
        · exact Or.inl (not_le.mp h)
        · exact Or.inr (not_le.mp h)

/-- A vehicle about to leave the corridor: one tick advances it from 2199 m
to 2203.8 m, past the 2200 m despawn bound. -/
def c9veh : TrafficVeh := ⟨"d0", 0, 2199, 30, 30, "sedan", .steady, 9/2, 9/5⟩

def c9vehAfter : TrafficVeh :=
  ⟨"d0", 0, 11019/5, 30, 30, "sedan", .steady, 9/2, 9/5⟩

def c9draws : TickDraws :=
  { jitter := fun _ => 1/2
    nudge := fun _ => 1/2
    resample := fun _ => 1/2
    spawn := fun _ => ⟨1, 0, 0, "nx", 0, 0⟩ }

theorem c9_spawn_snapshot_persistence_witness :
    (∃ nv, spawnVehicleOp [] 2 (some 50) (some 10) none none
        ⟨0, 0, 0, "u1", 0, 0⟩ = .ok ("u1", [] ++ [nv]) ∧
      "u1" ∈ snapshotIds ([] ++ [nv])) ∧
    (spawnVehicleOp [] 9 (some 50) (some 10) none none ⟨0, 0, 0, "u1", 0, 0⟩
        = .error "Invalid lane index" ∧
      spawnApplied [] 9 (some 50) (some 10) none none ⟨0, 0, 0, "u1", 0, 0⟩
        = []) ∧
    (∃ v, v ∈ spacingPhase liveLaneProfiles
        (laneChangePhase liveLaneProfiles c9draws.nudge c9draws.resample
          (updatePhase liveLaneProfiles (min (1/2) (4/25)) c9draws.jitter
            [c9veh])) ∧
      v.id = "d0" ∧ (2200 < v.positionZ ∨ v.positionZ < -1200)) := by
  have h1 : updatePhase liveLaneProfiles (4/25) c9draws.jitter [c9veh]
      = [c9vehAfter] := by
    norm_num [updatePhase, updatePhaseFrom, updateVehicle, randBetween,
      behaviorBias, profAt, liveLaneProfiles_eq, mphToMps, mphFactor,
      min_def, max_def, c9draws, c9veh, c9vehAfter]
  have hdec : laneChangeDecision liveLaneProfiles [c9vehAfter] c9vehAfter
      = none := by
    norm_num [laneChangeDecision, laneChangeCandidateStep, laneView,
      sortTrafficAsc, List.insertionSort, List.orderedInsert, findNeighbors,
      gapAheadOf, gapBehindOf, gapGt, gapLt, gapOf, scoreOf, scoreGt, profAt,
      liveLaneProfiles_eq, mphToMps, mphFactor, min_def, max_def, c9vehAfter]
  have h2 : laneChangePhase liveLaneProfiles c9draws.nudge c9draws.resample
      [c9vehAfter] = [c9vehAfter] := by
    simp only [laneChangePhase, List.length_cons, List.length_nil,
      Nat.zero_add, Nat.reduceAdd, listRange1, List.foldl_cons,
      List.foldl_nil, c9draws]
    simp [applyLaneChange, hdec]
  have h3 : spacingPhase liveLaneProfiles [c9vehAfter] = [c9vehAfter] := by
    norm_num [spacingPhase, laneGroup, enforceSpacing, enforceFrom,
      sortTrafficDesc, List.insertionSort, List.orderedInsert,
      liveLaneProfiles_eq, listRange5, c9vehAfter]
  have h4 : despawnPhase [c9vehAfter] = [] := by
    norm_num [despawnPhase, c9vehAfter]
  have hsSkip : ∀ lane : ℕ, lane ≤ 4 →
      spawnLane liveLaneProfiles (4/25) lane ⟨1, 0, 0, "nx", 0, 0⟩ []
        = [] := by
    intro lane hl
    interval_cases lane <;> norm_num [spawnLane, liveLaneProfiles_eq]
  have h5 : spawnPhase liveLaneProfiles (4/25) c9draws.spawn [] = [] := by
    simp only [spawnPhase, liveLaneProfiles_length, listRange5,
      List.foldl_cons, List.foldl_nil, c9draws]
    norm_num [hsSkip 0 (by norm_num), hsSkip 1 (by norm_num),
      hsSkip 2 (by norm_num), hsSkip 3 (by norm_num), hsSkip 4 (by norm_num)]
  have hdtmin : min (1/2 : ℚ) (4/25) = 4/25 := by norm_num [min_def]
  have htick : tick liveLaneProfiles (4/25) c9draws [c9veh] = [] := by
    rw [tick, hdtmin, if_neg (by norm_num), tickPhases, h1, h2, h3, h4, h5]
  refine ⟨?_, ?_, ?_⟩
  · exact (c9_spawn_snapshot_persistence [] 2 (some 50) (some 10) none none
      ⟨0, 0, 0, "u1", 0, 0⟩ (4/25) c9draws "x").1 (by norm_num) (by norm_num)
  · exact (c9_spawn_snapshot_persistence [] 9 (some 50) (some 10) none none
      ⟨0, 0, 0, "u1", 0, 0⟩ (4/25) c9draws "x").2.1 (by omega)
  · refine (c9_spawn_snapshot_persistence [c9veh] 0 none none none none
      ⟨0, 0, 0, "z", 0, 0⟩ (4/25) c9draws "d0").2.2 ?_ ?_
    · simp [snapshotIds, c9veh]
    · rw [htick]
      simp [snapshotIds]

/-- `clamp` from `cruiseHeuristic`. -/
def clampQ (value lo hi : ℚ) : ℚ := max lo (min hi value)

/-- `Math.round`: half rounds toward positive infinity. -/
def jsRound (q : ℚ) : ℤ := ⌊q + 1/2⌋

/-- `cruiseHeuristicPolicy` with the default options (speedAggressiveness
0.35, laneAggressiveness 0.8): proportional speed-error to accel/brake,
a hard gap-deficit override capping acceleration at 0.25 and raising
braking, proportional lane-error to lateral. -/
def cruiseHeuristicPolicy (o : Observation) (m : EnvMission) : DrivingAction :=
  let targetSpeed :=
    if 0 < m.cruiseTargetSpeedMps then m.cruiseTargetSpeedMps
    else o.targetSpeedMps
  let gapTarget := if 0 < m.cruiseGapMeters then m.cruiseGapMeters else 0
  let speedError := targetSpeed - o.speedMps
  let accel0 : ℚ :=
    if 0 < speedError then clampQ (speedError * (35/100)) 0 1 else 0
  let brake0 : ℚ :=
    if speedError < 0 then clampQ (-speedError * ((35/100) * (9/10))) 0 1
    else 0
  let hasGapDeficit := 0 < gapTarget ∧ o.gapAheadMeters < gapTarget
  let brake1 : ℚ :=
    if hasGapDeficit then
      let gapDeficit := gapTarget - o.gapAheadMeters
      let closingSpeed := max 0 (-o.relativeSpeedAheadMps)
      let brakeDemand :=
        gapDeficit / max gapTarget 1 + closingSpeed / max targetSpeed (1/10)
      max brake0 (clampQ brakeDemand 0 1)
    else brake0
  let accel1 : ℚ := if hasGapDeficit then min accel0 (1/4) else accel0
  let desiredLane : ℚ :=
    m.targetLaneIndex.getD (o.targetLaneIndex.getD (o.laneIndex : ℚ))
  let laneDelta := desiredLane - (o.laneIndex : ℚ)
  let requested : ℚ := max 0 ((jsRound desiredLane : ℤ) : ℚ)
  let lateral :=
    if laneDelta = 0 then
      clampQ (-(o.laneOffsetMeters) / (laneWidthMeters * (1/2))) (-1) 1
    else clampQ (laneDelta * (8/10)) (-1) 1
  { lateral := lateral
    acceleration := some accel1
    brake := some brake1
    requestedLaneIndex := some requested }

/-- The ambient draws consumed by one `DrivingEnvironment.reset`: the fresh
episode UUID and the live `SimulationService` reads (snapshot vehicles,
player state and current mission) — all independent of any episode seed. -/
structure ResetDraw where
  uuid : String
  vehicles : List EnvVehicle
  playerLaneIndex : ℤ
  playerSpeedMps : ℚ
  playerPositionZ : ℚ
  serviceMission : EnvMission

/-- `DrivingEnvironment.reset`: draws a fresh episode id, reseeds ego and
traffic from the live snapshot, overwrites the mission with the service
mission, applies the goal override when given (otherwise defaults a null
target lane to the ego's lane), and returns the first observation and
snapshot. -/
def resetEnv (s : EnvState) (e : ResetDraw) (goal : Option EnvMissionPatch) :
    EnvState × Observation × EnvSnapshot :=
  let s1 := { s with
    episodeId := e.uuid
    traffic := e.vehicles
    ego := ⟨e.playerLaneIndex, 0, e.playerSpeedMps, e.playerPositionZ, 0, 3⟩
    elapsedSeconds := 0 }
  let m2 := match goal with
    | some g => setMission e.serviceMission g
    | none =>
      if e.serviceMission.targetLaneIndex = none then
        { e.serviceMission with targetLaneIndex := some (s1.ego.laneIndex : ℚ) }
      else e.serviceMission
  let s2 := { s1 with mission := m2 }
  (s2, buildObservation s2, buildSnapshot s2 false)

/-- `MissionOverrides ∪ maxSteps ∪ seed ∪ metadata` from
`EpisodeGenerationOptions` (the controller is passed separately; it
defaults to `cruiseHeuristicPolicy`). -/
structure EpisodeOptions where
  missionTargetLane : Option (Option ℚ) := none
  missionSpeedMph : Option ℚ := none
  missionGap : Option ℚ := none
  maxSteps : Option ℤ := none
  seed : Option ℤ := none
  metaCommand : String := ""
  metaDescription : Option String := none

/-- `resolveMissionOverrides`: the resolved partial mission always carries
all three fields, falling back to the base mission's values. -/
def resolveMissionOverrides (base : EnvMission) (o : EpisodeOptions) :
    EnvMissionPatch :=
  { targetLaneIndex := some (o.missionTargetLane.getD base.targetLaneIndex)
    cruiseTargetSpeedMps := some (match o.missionSpeedMph with
      | none => base.cruiseTargetSpeedMps
      | some mph => mph * mphFactor)
    cruiseGapMeters := some (o.missionGap.getD base.cruiseGapMeters)
    mode := none
    returnLaneIndex := none
    laneChangeDirection := none }

/-- `EpisodeStepRecord`. -/
structure EpisodeStepRecord where
  stepIdx : ℕ
  timestampSeconds : ℚ
  observation : Observation
  action : DrivingAction
  reward : RewardBreakdown
  infoCollisions : ℕ
  infoLaneChanges : ℕ
  done : Bool
deriving DecidableEq, Repr

/-- The episode summary. -/
structure EpisodeSummary where
  totalReward : ℚ
  collisions : ℕ
  laneChanges : ℕ
  durationSeconds : ℚ
deriving DecidableEq, Repr

/-- `EpisodeRecord` (metadata flattened: scene id, command, description). -/
structure EpisodeRecord where
  episodeId : String
  seed : ℤ
  mission : EnvMission
  metaSceneId : String
  metaCommand : String
  metaDescription : Option String
  steps : List EpisodeStepRecord
  summary : EpisodeSummary
deriving DecidableEq, Repr

/-- `computeSummary`. -/
def computeSummary (steps : List EpisodeStepRecord) : EpisodeSummary :=
  { totalReward := (steps.map fun r => r.reward.total).sum
    collisions := (steps.map fun r => r.infoCollisions).sum
    laneChanges := (steps.map fun r => r.infoLaneChanges).sum
    durationSeconds := match steps.getLast? with
      | some r => r.timestampSeconds
      | none => 0 }

/-- The `while (!done && stepIndex < maxSteps)` loop of `simulateEpisode`,
with the remaining step budget as fuel. -/
def runEpisodeLoop (ctrl : Observation → EnvMission → DrivingAction)
    (mission : EnvMission) (dt : ℚ) :
    ℕ → ℕ → EnvState → Observation → EnvSnapshot →
      List EpisodeStepRecord × EnvState × EnvSnapshot
  | 0, _, env, _, snap => ([], env, snap)
  | fuel + 1, stepIdx, env, obs, _snap =>
    let action := ctrl obs mission
    let result := step env action
    let record : EpisodeStepRecord :=
      { stepIdx := stepIdx
        timestampSeconds := ((stepIdx : ℚ) + 1) * dt
        observation := obs
        action := action
        reward := result.2.reward
        infoCollisions := result.2.infoCollisions
        infoLaneChanges := result.2.infoLaneChanges
        done := result.2.done }
    if result.2.done then ([record], result.1, result.2.snapshot)
    else
      let rest := runEpisodeLoop ctrl mission dt fuel (stepIdx + 1) result.1
        result.2.observation result.2.snapshot
      (record :: rest.1, rest.2.1, rest.2.2)

/-- The ambient randomness consumed by one `simulateEpisode` call: the
reset draws and the `crypto.randomInt` fallback seed. -/
structure EpisodeDraw where
  reset : ResetDraw
  seedDraw : ℤ

/-- `simulateEpisode`: resolves the mission overrides over the env's
current mission, resets, runs the controller loop for at most
`maxSteps ?? floor(180 / dt)` steps or until done, and assembles the
episode record; the record's seed field is the explicit option seed, or a
fresh cryptographically drawn one. -/
def simulateEpisode (ctrl : Observation → EnvMission → DrivingAction)
    (e : EpisodeDraw) (env : EnvState) (opts : EpisodeOptions) :
    EpisodeRecord × EnvState :=
  let baseMission := env.mission
  let missionUpdate := resolveMissionOverrides baseMission opts
  let r0 := resetEnv env e.reset (some missionUpdate)
  let env1 := r0.1
  let mission := env1.mission
  let dt := env1.config.timeStepSeconds
  let maxSteps : ℤ := opts.maxSteps.getD ⌊(180 : ℚ) / dt⌋
  let run := runEpisodeLoop ctrl mission dt maxSteps.toNat 0 env1 r0.2.1 r0.2.2
  ({ episodeId := run.2.1.episodeId
     seed := opts.seed.getD e.seedDraw
     mission := mission
     metaSceneId := run.2.2.sceneId
     metaCommand := opts.metaCommand
     metaDescription := opts.metaDescription
     steps := run.1
     summary := computeSummary run.1 }, run.2.1)

/-- The fixed generation options of the determinism counterexample: an
explicit seed 7 and a step budget of 0. -/
def c8opts : EpisodeOptions := { maxSteps := some 0, seed := some 7 }

/-- First run's ambient draws: episode UUID a, empty live snapshot. -/
def c8drawA : EpisodeDraw :=
  { reset := { uuid := "uuid-a"
               vehicles := []
               playerLaneIndex := 2
               playerSpeedMps := 10
               playerPositionZ := 0
               serviceMission := envMissionHold }
    seedDraw := 0 }

/-- Second run's ambient draws: identical except for the episode UUID. -/
def c8drawB : EpisodeDraw :=
  { reset := { uuid := "uuid-b"
               vehicles := []
               playerLaneIndex := 2
               playerSpeedMps := 10
               playerPositionZ := 0
               serviceMission := envMissionHold }
    seedDraw := 0 }

/-- C8 counterexample: two `simulateEpisode` runs with the same explicit seed
(7) and byte-identical options produce different episode records, because the
episode id is a fresh `randomUUID` drawn inside `reset` independently of the
seed — the seed is never fed into any random source, so episode generation is
not deterministic given an explicit seed. -/
theorem c8_counterexample :
    (simulateEpisode cruiseHeuristicPolicy c8drawA envEscape c8opts).1.episodeId
        = "uuid-a" ∧
    (simulateEpisode cruiseHeuristicPolicy c8drawB envEscape c8opts).1.episodeId
        = "uuid-b" ∧
    (simulateEpisode cruiseHeuristicPolicy c8drawA envEscape c8opts).1 ≠
      (simulateEpisode cruiseHeuristicPolicy c8drawB envEscape c8opts).1 := by
  refine ⟨rfl, rfl, fun h => ?_⟩
  have h2 := congrArg EpisodeRecord.episodeId h
  exact absurd h2 (by decide)

/-- C8 amended: the explicit seed is only recorded, never consumed: the
record's seed field equals the explicit seed, and for fixed ambient draws
every other part of the record (steps, episode id) is the same whatever seed
is passed — determinism holds relative to the ambient draws (UUIDs and the
live simulation snapshot), not relative to the seed. -/
theorem c8_amended_seed_recorded
    (ctrl : Observation → EnvMission → DrivingAction) (e : EpisodeDraw)
    (env : EnvState) (opts : EpisodeOptions) (sd : ℤ) :
    (simulateEpisode ctrl e env { opts with seed := some sd }).1.seed = sd ∧
    ∀ sd' : ℤ,
      (simulateEpisode ctrl e env { opts with seed := some sd }).1.steps =
        (simulateEpisode ctrl e env { opts with seed := some sd' }).1.steps ∧
      (simulateEpisode ctrl e env { opts with seed := some sd }).1.episodeId =
        (simulateEpisode ctrl e env { opts with seed := some sd' }).1.episodeId
    := ⟨rfl, fun _ => ⟨rfl, rfl⟩⟩

end CarAi
